import Mathlib

/-!
Verification development for the gamecock swaps subsystem.

Shallow embedding of the swap-contract data model, the obligation and
trigger deriver, the risk scorer, the persistence layer and the field
normalizer, translated from gamecock/swaps_analyzer.py,
gamecock/db_handler.py, gamecock/db_swaps.py, gamecock/data_structures.py
and gamecock/swaps_processor.py.  Python floats are modelled as rationals
(reals where a square root occurs); calendar dates are modelled
structurally with dateutil month arithmetic.
-/


/-- ASCII lowercasing of one character, the effective behaviour of
str.lower on the identifiers this system handles. -/
def Char.pyLower (c : Char) : Char :=
  if 65 ≤ c.toNat ∧ c.toNat ≤ 90 then Char.ofNat (c.toNat + 32) else c

/-- ASCII lowercasing of a string, modelling str.lower. -/
def String.pyLower (s : String) : String :=
  String.mk (s.data.map Char.pyLower)

namespace Gamecock

/-! ## Calendar dates -/

/-- A calendar date, as in datetime.date. -/
structure Date where
  year : ℕ
  month : ℕ
  day : ℕ
deriving DecidableEq, Repr

/-- Gregorian leap-year rule. -/
def isLeapYear (y : ℕ) : Bool :=
  y % 4 == 0 && (y % 100 != 0 || y % 400 == 0)

/-- Number of days in a month. -/
def daysInMonth (y m : ℕ) : ℕ :=
  if m = 2 then (if isLeapYear y then 29 else 28)
  else if m = 4 ∨ m = 6 ∨ m = 9 ∨ m = 11 then 30
  else 31

/-- Month addition with day clamping, as dateutil relativedelta does:
the month index advances and the day is clamped to the length of the
target month.  relativedelta with years equal to 1 coincides with adding
12 months. -/
def Date.addMonths (d : Date) (n : ℕ) : Date :=
  let t := d.year * 12 + (d.month - 1) + n
  let y := t / 12
  let m := t % 12 + 1
  { year := y, month := m, day := min d.day (daysInMonth y m) }

/-- Zero-pad a number to two digits. -/
def pad2 (n : ℕ) : String :=
  if n < 10 then "0" ++ toString n else toString n

/-- Zero-pad a number to four digits. -/
def pad4 (n : ℕ) : String :=
  if n < 10 then "000" ++ toString n
  else if n < 100 then "00" ++ toString n
  else if n < 1000 then "0" ++ toString n
  else toString n

/-- ISO rendering of a date, as str(datetime.date) produces. -/
def Date.toIso (d : Date) : String :=
  pad4 d.year ++ "-" ++ pad2 d.month ++ "-" ++ pad2 d.day

/-! ## Enumerations (swaps_analyzer.SwapType, PaymentFrequency) -/

/-- The SwapType enum of swaps_analyzer.py and data_structures.py. -/
inductive SwapType where
  | credit_default
  | interest_rate
  | total_return
  | currency
  | commodity
  | equity
  | other
deriving DecidableEq, Repr

/-- The string value of each SwapType member. -/
def SwapType.value : SwapType → String
  | .credit_default => "credit_default"
  | .interest_rate => "interest_rate"
  | .total_return => "total_return"
  | .currency => "currency"
  | .commodity => "commodity"
  | .equity => "equity"
  | .other => "other"

/-- Value lookup of the SwapType enum: SwapType(s) returns the member
whose value is s and raises ValueError (here: none) otherwise. -/
def SwapType.ofValue (s : String) : Option SwapType :=
  if s = "credit_default" then some .credit_default
  else if s = "interest_rate" then some .interest_rate
  else if s = "total_return" then some .total_return
  else if s = "currency" then some .currency
  else if s = "commodity" then some .commodity
  else if s = "equity" then some .equity
  else if s = "other" then some .other
  else none

/-- The PaymentFrequency enum. -/
inductive PaymentFrequency where
  | daily
  | weekly
  | monthly
  | quarterly
  | semi_annual
  | annual
  | at_maturity
deriving DecidableEq, Repr

/-- Value lookup of the PaymentFrequency enum; none models ValueError. -/
def PaymentFrequency.ofValue (s : String) : Option PaymentFrequency :=
  if s = "daily" then some .daily
  else if s = "weekly" then some .weekly
  else if s = "monthly" then some .monthly
  else if s = "quarterly" then some .quarterly
  else if s = "semi_annual" then some .semi_annual
  else if s = "annual" then some .annual
  else if s = "at_maturity" then some .at_maturity
  else none

/-! ## Contract model and the obligation and trigger deriver
(swaps_analyzer.SwapsAnalyzer) -/

/-- An obligation record as produced by extract_obligations: the dict
keys obligation_type, amount, currency, due_date, status, description. -/
structure Obligation where
  obligation_type : String
  amount : ℚ
  currency : String
  due_date : Option Date
  status : String
  description : String
deriving DecidableEq, Repr

/-- A trigger record as produced by extract_obligation_triggers. -/
structure Trigger where
  trigger_type : String
  trigger_condition : String
  description : String
  is_active : Bool
deriving DecidableEq, Repr

/-- The SwapContract dataclass after post-init normalisation: dates are
date objects and the two enums are parsed members.  The opaque
additional_terms map is modelled by its two recognised entries: the
obligations list and the triggers list, which the deriver appends
verbatim; the remaining free-form content does not influence any
modelled operation. -/
structure SwapContract where
  contract_id : String
  counterparty : String
  reference_entity : String
  notional_amount : ℚ
  currency : String
  effective_date : Date
  maturity_date : Date
  swap_type : SwapType
  payment_frequency : PaymentFrequency
  fixed_rate : Option ℚ
  floating_rate_index : Option String
  floating_rate_spread : Option ℚ
  additional_obligations : List Obligation
  additional_triggers : List Trigger
deriving DecidableEq, Repr

/-- Payments per year for a frequency
(SwapsAnalyzer.get_payment_frequency_factor); the map covers the whole
enum, so the fallback 4 of dict.get is unreachable. -/
def payment_frequency_factor : PaymentFrequency → ℕ
  | .daily => 365
  | .weekly => 52
  | .monthly => 12
  | .quarterly => 4
  | .semi_annual => 2
  | .annual => 1
  | .at_maturity => 1

/-- Next payment date from a start date and a frequency
(SwapsAnalyzer.calculate_next_payment_date); annual adds one year,
which equals adding 12 months, and every unlisted frequency defaults to
quarterly, namely 3 months. -/
def calculate_next_payment_date (start_date : Date) : PaymentFrequency → Date
  | .monthly => start_date.addMonths 1
  | .quarterly => start_date.addMonths 3
  | .semi_annual => start_date.addMonths 6
  | .annual => start_date.addMonths 12
  | _ => start_date.addMonths 3

/-- Obligation derivation (SwapsAnalyzer.extract_obligations).  The
fixed-rate and floating-index branches test Python truthiness, so a
zero rate and an empty index string are treated like absent ones.
Number rendering inside description strings is modelled with the
rational toString, which differs from Python float repr only in the
trailing ".0" of integral values. -/
def extract_obligations (swap : SwapContract) : List Obligation :=
  let auto : List Obligation :=
    match swap.swap_type with
    | .interest_rate =>
      (match swap.fixed_rate with
       | some r =>
         if r ≠ 0 then
           [{ obligation_type := "fixed_payment"
              amount := swap.notional_amount * (r / 100) /
                (payment_frequency_factor swap.payment_frequency : ℚ)
              currency := swap.currency
              due_date := some (calculate_next_payment_date swap.effective_date swap.payment_frequency)
              status := "pending"
              description := "Fixed rate payment at " ++ toString r ++ "%" }]
         else []
       | none => []) ++
      (match swap.floating_rate_index with
       | some idx =>
         if idx ≠ "" then
           [{ obligation_type := "floating_payment"
              amount := 0
              currency := swap.currency
              due_date := some (calculate_next_payment_date swap.effective_date swap.payment_frequency)
              status := "pending"
              description := "Floating rate payment based on " ++ idx }]
         else []
       | none => [])
    | .credit_default =>
      [{ obligation_type := "premium_payment"
         amount := swap.notional_amount * (1 / 100)
         currency := swap.currency
         due_date := some (calculate_next_payment_date swap.effective_date swap.payment_frequency)
         status := "pending"
         description := "Credit default swap premium payment" },
       { obligation_type := "protection_payment"
         amount := swap.notional_amount
         currency := swap.currency
         due_date := none
         status := "contingent"
         description := "Protection payment upon credit event" }]
    | .total_return =>
      [{ obligation_type := "total_return_payment"
         amount := 0
         currency := swap.currency
         due_date := some (calculate_next_payment_date swap.effective_date swap.payment_frequency)
         status := "pending"
         description := "Total return payment on " ++ swap.reference_entity }]
    | _ => []
  auto ++ swap.additional_obligations

/-- Rendering of an obligation due date inside a trigger condition:
obligation.get with default TBD.  The auto-derived obligations always
carry the due_date key, so the default fires only for explicit
additional-terms obligations, which this model folds into none. -/
def due_date_text : Option Date → String
  | some d => d.toIso
  | none => "TBD"

/-- Trigger derivation for one obligation
(SwapsAnalyzer.extract_obligation_triggers): dispatch on the obligation
type, then append the explicit additional-terms triggers verbatim. -/
def extract_obligation_triggers (swap : SwapContract) (obligation : Obligation) : List Trigger :=
  let auto : List Trigger :=
    if obligation.obligation_type = "protection_payment" then
      [{ trigger_type := "credit_event"
         trigger_condition := "credit_event(" ++ swap.reference_entity ++ ") = true"
         description := "Credit event on " ++ swap.reference_entity
         is_active := true }]
    else if obligation.obligation_type = "fixed_payment" ∨
            obligation.obligation_type = "floating_payment" ∨
            obligation.obligation_type = "premium_payment" then
      [{ trigger_type := "time_based"
         trigger_condition := "date >= " ++ due_date_text obligation.due_date
         description := "Payment due on " ++ due_date_text obligation.due_date
         is_active := true }]
    else if obligation.obligation_type = "total_return_payment" then
      [{ trigger_type := "performance"
         trigger_condition := "performance(" ++ swap.reference_entity ++ ") != 0"
         description := "Performance change in " ++ swap.reference_entity
         is_active := true }]
    else []
  auto ++ swap.additional_triggers

/-! ## Risk scorer (the second, live definition of
SwapsAnalyzer.calculate_risk_score, swaps_analyzer.py lines 1080-1135;
it shadows the earlier definition of the same name) -/

/-- Inherent risk weight of each swap type (the type_risk_weights dict).
The dict covers all seven members, so the fallback 30 of dict.get is
unreachable. -/
noncomputable def type_risk_weight : SwapType → ℝ
  | .credit_default => 90
  | .total_return => 80
  | .equity => 70
  | .commodity => 65
  | .currency => 50
  | .interest_rate => 40
  | .other => 30

/-- Notional sub-score: min(100, max(0, 10 * sqrt(notional / 1e6))). -/
noncomputable def notional_score (total_notional : ℝ) : ℝ :=
  min 100 (max 0 (10 * Real.sqrt (total_notional / 1000000)))

/-- Maturity sub-score: min(100, max(0, avg * 10)). -/
noncomputable def maturity_score (avg_time_to_maturity : ℝ) : ℝ :=
  min 100 (max 0 (avg_time_to_maturity * 10))

/-- Counterparty concentration sub-score. -/
noncomputable def counterparty_score (counterparty_concentration : ℝ) : ℝ :=
  min 100 (max 0 (counterparty_concentration * 100))

/-- Currency concentration sub-score. -/
noncomputable def currency_score (currency_concentration : ℝ) : ℝ :=
  min 100 (max 0 (currency_concentration * 100))

/-- Mean of the per-type risk weights, 30 on the empty list. -/
noncomputable def mean_type_score (ts : List SwapType) : ℝ :=
  let type_scores := ts.map type_risk_weight
  if type_scores.isEmpty then 30 else type_scores.sum / type_scores.length

/-- Python round to two decimals, modelled with the Mathlib integer
round; the distinction from binary-float round-half-even matters only
at exact half-cent values. -/
noncomputable def pyRound2 (x : ℝ) : ℝ :=
  (round (100 * x) : ℤ) / 100

/-- The live calculate_risk_score.  The comprehension
SwapType(st) over swap_types raises ValueError on the first string that
is not an enum value, modelled by the none result of mapM; on success
the weighted sum of the clamped sub-scores is clamped to the unit range
of 0 to 100 and rounded to two decimals. -/
noncomputable def calculate_risk_score (total_notional avg_time_to_maturity
    counterparty_concentration currency_concentration : ℝ)
    (swap_types : List String) : Option ℝ :=
  match swap_types.mapM SwapType.ofValue with
  | none => none
  | some ts =>
    let final_score :=
      notional_score total_notional * (30 / 100) +
      maturity_score avg_time_to_maturity * (20 / 100) +
      counterparty_score counterparty_concentration * (25 / 100) +
      currency_score currency_concentration * (15 / 100) +
      mean_type_score ts * (10 / 100)
    some (pyRound2 (min 100 (max 0 final_score)))

/-! ## Persistence layer (db_handler.DatabaseHandler; the swaps part is
identical in db_swaps.SwapsDatabase).  Tables are lists of rows,
autoincrement ids are per-table counters, and the session clock stands
for func.now and datetime.utcnow; each write advances the clock. -/

/-- A row of the counterparties table. -/
structure CounterpartyRow where
  id : ℕ
  name : String
deriving DecidableEq, Repr

/-- A row of the reference_securities table. -/
structure SecurityRow where
  id : ℕ
  identifier : String
  security_type : Option String
  description : Option String
deriving DecidableEq, Repr

/-- A row of the swaps table. -/
structure SwapRow where
  id : ℕ
  contract_id : String
  counterparty_id : ℕ
  reference_entity : String
  notional_amount : ℚ
  currency : String
  effective_date : Date
  maturity_date : Date
  swap_type : Option String
  payment_frequency : Option String
  fixed_rate : Option ℚ
  floating_rate_index : Option String
  floating_rate_spread : Option ℚ
  collateral_terms : Option String
  additional_terms : Option String
  created_at : ℕ
  updated_at : ℕ
deriving DecidableEq, Repr

/-- A row of the swap_obligations table. -/
structure ObligationRow where
  id : ℕ
  swap_id : ℕ
  obligation_type : String
  amount : ℚ
  currency : String
  due_date : Option Date
  status : Option String
  description : Option String
deriving DecidableEq, Repr

/-- A row of the obligation_triggers table. -/
structure TriggerRow where
  id : ℕ
  obligation_id : ℕ
  trigger_type : String
  trigger_condition : String
  description : Option String
  is_active : Bool
deriving DecidableEq, Repr

/-- A row of the underlying_instruments table. -/
structure InstrumentRow where
  id : ℕ
  swap_id : ℕ
  instrument_type : String
  security_id : ℕ
  description : Option String
  quantity : Option ℚ
  notional_amount : Option ℚ
  currency : Option String
deriving DecidableEq, Repr

/-- The database state. -/
structure DB where
  counterparties : List CounterpartyRow
  securities : List SecurityRow
  swaps : List SwapRow
  obligations : List ObligationRow
  triggers : List TriggerRow
  instruments : List InstrumentRow
  next_counterparty_id : ℕ
  next_security_id : ℕ
  next_swap_id : ℕ
  next_instrument_id : ℕ
  clock : ℕ
deriving DecidableEq, Repr

/-- The empty database. -/
def emptyDB : DB :=
  { counterparties := [], securities := [], swaps := [], obligations := []
    triggers := [], instruments := []
    next_counterparty_id := 1, next_security_id := 1, next_swap_id := 1
    next_instrument_id := 1, clock := 0 }

/-- DatabaseHandler.get_or_create_counterparty: case-insensitive exact
lookup on the name (func.lower on both sides), inserting a new row when
no match exists.  Returns the new state and the returned row. -/
def DB.get_or_create_counterparty (db : DB) (name : String) : DB × CounterpartyRow :=
  match db.counterparties.find? (fun c => c.name.pyLower = name.pyLower) with
  | some c => (db, c)
  | none =>
    let c : CounterpartyRow := { id := db.next_counterparty_id, name := name }
    ({ db with counterparties := db.counterparties ++ [c]
               next_counterparty_id := db.next_counterparty_id + 1
               clock := db.clock + 1 }, c)

/-- DatabaseHandler.get_or_create_security: case-insensitive exact
lookup on the identifier, inserting a new row when no match exists. -/
def DB.get_or_create_security (db : DB) (identifier : String) : DB × SecurityRow :=
  match db.securities.find? (fun s => s.identifier.pyLower = identifier.pyLower) with
  | some s => (db, s)
  | none =>
    let s : SecurityRow := { id := db.next_security_id, identifier := identifier
                             security_type := none, description := none }
    ({ db with securities := db.securities ++ [s]
               next_security_id := db.next_security_id + 1
               clock := db.clock + 1 }, s)

/-- The dictionary handed to save_swap, namely SwapContract.to_dict:
all content fields, with the two opaque term maps serialised. -/
structure SwapData where
  contract_id : String
  counterparty : String
  reference_entity : String
  notional_amount : ℚ
  currency : String
  effective_date : Date
  maturity_date : Date
  swap_type : Option String
  payment_frequency : Option String
  fixed_rate : Option ℚ
  floating_rate_index : Option String
  floating_rate_spread : Option ℚ
  collateral_terms : Option String
  additional_terms : Option String
deriving DecidableEq, Repr

/-- Replace the first element satisfying p by its image under f,
modelling a mutation of the first query result. -/
def updateFirst (p : α → Bool) (f : α → α) : List α → List α
  | [] => []
  | x :: xs => if p x then f x :: xs else x :: updateFirst p f xs

/-- The full-field overwrite applied to an existing swap row by
save_swap: every key of the dict is set on the mapped row (the row id
is excluded and created_at is not in the dict), then updated_at is
refreshed. -/
def overwriteSwapRow (d : SwapData) (cp_id : ℕ) (now : ℕ) (s : SwapRow) : SwapRow :=
  { s with contract_id := d.contract_id
           counterparty_id := cp_id
           reference_entity := d.reference_entity
           notional_amount := d.notional_amount
           currency := d.currency
           effective_date := d.effective_date
           maturity_date := d.maturity_date
           swap_type := d.swap_type
           payment_frequency := d.payment_frequency
           fixed_rate := d.fixed_rate
           floating_rate_index := d.floating_rate_index
           floating_rate_spread := d.floating_rate_spread
           collateral_terms := d.collateral_terms
           additional_terms := d.additional_terms
           updated_at := now }

/-- DatabaseHandler.save_swap.  An empty counterparty name raises
ValueError, modelled as a none result.  The counterparty lookup here is
a case-sensitive exact match (filter_by on name), unlike
get_or_create_counterparty; a missing name is inserted.  An existing
swap with the same contract_id is overwritten field by field with
updated_at refreshed; otherwise a new row is inserted. -/
def DB.save_swap (db : DB) (d : SwapData) : DB × Option SwapRow :=
  if d.counterparty = "" then (db, none)
  else
    let step1 : DB × CounterpartyRow :=
      match db.counterparties.find? (fun c => c.name = d.counterparty) with
      | some c => (db, c)
      | none =>
        let c : CounterpartyRow := { id := db.next_counterparty_id, name := d.counterparty }
        ({ db with counterparties := db.counterparties ++ [c]
                   next_counterparty_id := db.next_counterparty_id + 1 }, c)
    let db1 := step1.1
    let cp := step1.2
    match db1.swaps.find? (fun s => s.contract_id = d.contract_id) with
    | some s0 =>
      ({ db1 with
           swaps := updateFirst (fun s => s.contract_id = d.contract_id)
                      (overwriteSwapRow d cp.id db1.clock) db1.swaps
           clock := db1.clock + 1 },
       some (overwriteSwapRow d cp.id db1.clock s0))
    | none =>
      let s : SwapRow :=
        { id := db1.next_swap_id, contract_id := d.contract_id
          counterparty_id := cp.id, reference_entity := d.reference_entity
          notional_amount := d.notional_amount, currency := d.currency
          effective_date := d.effective_date, maturity_date := d.maturity_date
          swap_type := d.swap_type, payment_frequency := d.payment_frequency
          fixed_rate := d.fixed_rate, floating_rate_index := d.floating_rate_index
          floating_rate_spread := d.floating_rate_spread
          collateral_terms := d.collateral_terms, additional_terms := d.additional_terms
          created_at := db1.clock, updated_at := db1.clock }
      ({ db1 with swaps := db1.swaps ++ [s]
                  next_swap_id := db1.next_swap_id + 1
                  clock := db1.clock + 1 },
       some s)

/-- DatabaseHandler.delete_swap: the first swap row with the given
contract_id is deleted; the relationship cascades remove its
obligations, their triggers, and its underlying instruments.  Returns
false and leaves the state unchanged when no row matches. -/
def DB.delete_swap (db : DB) (contract_id : String) : DB × Bool :=
  match db.swaps.find? (fun s => s.contract_id = contract_id) with
  | none => (db, false)
  | some s =>
    let deleted_obligations := db.obligations.filter (fun o => o.swap_id = s.id)
    ({ db with
         swaps := db.swaps.eraseP (fun r => r.contract_id = contract_id)
         obligations := db.obligations.filter (fun o => ¬ o.swap_id = s.id)
         triggers := db.triggers.filter
           (fun t => ¬ deleted_obligations.any (fun o => o.id = t.obligation_id))
         instruments := db.instruments.filter (fun i => ¬ i.swap_id = s.id)
         clock := db.clock + 1 }, true)

/-- The dictionary handed to add_underlying_instrument. -/
structure InstrumentData where
  identifier : String
  instrument_type : String
  description : Option String
  quantity : Option ℚ
  notional_amount : Option ℚ
  currency : Option String
deriving DecidableEq, Repr

/-- DatabaseHandler.add_underlying_instrument.  An empty identifier
raises ValueError (none).  The security lookup is a case-sensitive
exact match on the identifier; a missing security is created with the
security_type and description of the instrument, then the instrument
row is inserted. -/
def DB.add_underlying_instrument (db : DB) (swap_id : ℕ) (d : InstrumentData) :
    DB × Option InstrumentRow :=
  if d.identifier = "" then (db, none)
  else
    let step1 : DB × SecurityRow :=
      match db.securities.find? (fun s => s.identifier = d.identifier) with
      | some s => (db, s)
      | none =>
        let s : SecurityRow := { id := db.next_security_id, identifier := d.identifier
                                 security_type := some d.instrument_type
                                 description := d.description }
        ({ db with securities := db.securities ++ [s]
                   next_security_id := db.next_security_id + 1 }, s)
    let db1 := step1.1
    let i : InstrumentRow :=
      { id := db1.next_instrument_id, swap_id := swap_id
        instrument_type := d.instrument_type, security_id := step1.2.id
        description := d.description, quantity := d.quantity
        notional_amount := d.notional_amount, currency := d.currency }
    ({ db1 with instruments := db1.instruments ++ [i]
                next_instrument_id := db1.next_instrument_id + 1
                clock := db1.clock + 1 },
     some i)

/-- The write operations named by the uniqueness invariant. -/
inductive WriteOp where
  | getOrCreateCounterparty (name : String)
  | getOrCreateSecurity (identifier : String)
  | saveSwap (d : SwapData)
  | addUnderlyingInstrument (swap_id : ℕ) (d : InstrumentData)
deriving DecidableEq, Repr

/-- Apply one write operation, discarding its return value. -/
def DB.applyOp (db : DB) : WriteOp → DB
  | .getOrCreateCounterparty name => (db.get_or_create_counterparty name).1
  | .getOrCreateSecurity identifier => (db.get_or_create_security identifier).1
  | .saveSwap d => (db.save_swap d).1
  | .addUnderlyingInstrument swap_id d => (db.add_underlying_instrument swap_id d).1

/-- Apply a sequence of write operations. -/
def DB.applyOps (db : DB) (ops : List WriteOp) : DB :=
  ops.foldl DB.applyOp db

/-- Counterparty names are pairwise distinct ignoring case. -/
def cpNamesCIUnique (db : DB) : Prop :=
  db.counterparties.Pairwise (fun a b => a.name.pyLower ≠ b.name.pyLower)

/-- Reference-security identifiers are pairwise distinct ignoring case. -/
def secIdentifiersCIUnique (db : DB) : Prop :=
  db.securities.Pairwise (fun a b => a.identifier.pyLower ≠ b.identifier.pyLower)

/-- Structural well-formedness of a database state: the unique
constraint on swaps.contract_id and distinctness of the generated
primary keys. -/
def DB.wf (db : DB) : Prop :=
  db.swaps.Pairwise (fun a b => a.contract_id ≠ b.contract_id) ∧
  db.swaps.Pairwise (fun a b => a.id ≠ b.id) ∧
  db.obligations.Pairwise (fun a b => a.id ≠ b.id)


/-! ## The vw_swap_obligations read view (DatabaseHandler.create_view;
identical SQL in SwapsDatabase).  The FROM clause with its five LEFT
JOINs is modelled as a list of joined tuples, the WHERE clause as a
filter keeping rows whose trigger is active or absent, and the SELECT
list as a projection. -/

/-- One tuple of the join underlying the view, before projection. -/
structure JoinedRow where
  swap : SwapRow
  counterparty : Option CounterpartyRow
  obligation : Option ObligationRow
  instrument : Option InstrumentRow
  security : Option SecurityRow
  trigger : Option TriggerRow
deriving DecidableEq, Repr

/-- Left outer extension of a match list: an empty match list yields a
single null partner. -/
def leftOuter (xs : List α) : List (Option α) :=
  if xs.isEmpty then [none] else xs.map some

/-- The tuples the join contributes for one swap row: the counterparty
looked up on counterparty_id, the left-outer obligations and
instruments on swap_id, the security of the instrument, and the
left-outer triggers of the obligation.  A null obligation or instrument
propagates a null join partner downstream. -/
def swapJoinedRows (db : DB) (s : SwapRow) : List JoinedRow :=
  let cp := db.counterparties.find? (fun c => c.id = s.counterparty_id)
  (leftOuter (db.obligations.filter (fun o => o.swap_id = s.id))).flatMap fun o =>
    (leftOuter (db.instruments.filter (fun i => i.swap_id = s.id))).flatMap fun ui =>
      let rs := ui.bind fun i => db.securities.find? (fun r => r.id = i.security_id)
      let trigs := match o with
        | none => ([] : List TriggerRow)
        | some ob => db.triggers.filter (fun t => t.obligation_id = ob.id)
      (leftOuter trigs).map fun ot =>
        { swap := s, counterparty := cp, obligation := o
          instrument := ui, security := rs, trigger := ot }

/-- The FROM clause of the view: swaps left-joined with counterparties,
swap_obligations, underlying_instruments, reference_securities and
obligation_triggers. -/
def joinedRows (db : DB) : List JoinedRow :=
  db.swaps.flatMap (swapJoinedRows db)

/-- The WHERE clause: ot.is_active = 1 OR ot.id IS NULL. -/
def activeJoinedRows (db : DB) : List JoinedRow :=
  (joinedRows db).filter fun j =>
    match j.trigger with
    | some t => t.is_active
    | none => true

/-- The SELECT list of vw_swap_obligations. -/
structure ViewRow where
  swap_id : ℕ
  contract_id : String
  counterparty : Option String
  reference_entity : String
  notional_amount : ℚ
  currency : String
  effective_date : Date
  maturity_date : Date
  swap_type : Option String
  obligation_id : Option ℕ
  obligation_type : Option String
  obligation_amount : Option ℚ
  obligation_currency : Option String
  due_date : Option Date
  obligation_status : Option String
  obligation_description : Option String
  instrument_type : Option String
  instrument_identifier : Option String
  instrument_description : Option String
  quantity : Option ℚ
  instrument_notional : Option ℚ
  trigger_type : Option String
  trigger_condition : Option String
  trigger_description : Option String
deriving DecidableEq, Repr

/-- Projection of one joined tuple onto the SELECT list. -/
def projectRow (j : JoinedRow) : ViewRow :=
  { swap_id := j.swap.id
    contract_id := j.swap.contract_id
    counterparty := j.counterparty.map (fun c => c.name)
    reference_entity := j.swap.reference_entity
    notional_amount := j.swap.notional_amount
    currency := j.swap.currency
    effective_date := j.swap.effective_date
    maturity_date := j.swap.maturity_date
    swap_type := j.swap.swap_type
    obligation_id := j.obligation.map (fun o => o.id)
    obligation_type := j.obligation.map (fun o => o.obligation_type)
    obligation_amount := j.obligation.map (fun o => o.amount)
    obligation_currency := j.obligation.map (fun o => o.currency)
    due_date := j.obligation.bind (fun o => o.due_date)
    obligation_status := j.obligation.bind (fun o => o.status)
    obligation_description := j.obligation.bind (fun o => o.description)
    instrument_type := j.instrument.map (fun i => i.instrument_type)
    instrument_identifier := j.security.map (fun r => r.identifier)
    instrument_description := j.security.bind (fun r => r.description)
    quantity := j.instrument.bind (fun i => i.quantity)
    instrument_notional := j.instrument.bind (fun i => i.notional_amount)
    trigger_type := j.trigger.map (fun t => t.trigger_type)
    trigger_condition := j.trigger.map (fun t => t.trigger_condition)
    trigger_description := j.trigger.bind (fun t => t.description) }

/-- The rows of vw_swap_obligations. -/
def viewRows (db : DB) : List ViewRow :=
  (activeJoinedRows db).map projectRow


/-! ## Field normalizer (SwapsAnalyzer.process_dataframe and
process_swap_item; SwapsProcessor carries the same logic with a
per-file skip counter).  A dataframe cell is a string, a number, or a
missing value (NaN); the permissive pandas date parser and the Python
float constructor are modelled on ISO dates and plain decimal literals,
which covers every claim input; scientific notation, underscores and
non-string date cells are outside the modelled scope. -/

/-- A dataframe cell. -/
inductive Cell where
  | str (s : String)
  | num (q : ℚ)
  | null
deriving DecidableEq, Repr

/-- A dataframe row: column name to cell. -/
abbrev Row := List (String × Cell)

/-- Value of a named column in a row. -/
def lookupCell (row : Row) (k : String) : Option Cell :=
  (row.find? (fun p => p.1 = k)).map (fun p => p.2)

/-- A dataframe: the column list and the rows. -/
structure DataFrame where
  columns : List String
  rows : List Row
deriving Repr

/-- Split a character list at a separator. -/
def splitOnChar (sep : Char) : List Char → List (List Char)
  | [] => [[]]
  | c :: cs =>
    match splitOnChar sep cs with
    | [] => if c = sep then [[], []] else [[c]]
    | h :: t => if c = sep then [] :: h :: t else (c :: h) :: t

/-- The value of a decimal digit character. -/
def charDigit? (c : Char) : Option ℕ :=
  if 48 ≤ c.toNat ∧ c.toNat ≤ 57 then some (c.toNat - 48) else none

/-- The value of a nonempty all-digit character list. -/
def digitsVal? (cs : List Char) : Option ℕ :=
  if cs.isEmpty then none
  else cs.foldl (fun acc c => acc.bind fun n => (charDigit? c).map fun d => n * 10 + d)
    (some 0)

/-- Strict parse of YYYY-MM-DD with calendar validation, as
datetime.strptime with that format; also the model of the pandas
parser, restricted to ISO input. -/
def parse_iso_date (s : String) : Option Date :=
  match splitOnChar (Char.ofNat 45) s.data with
  | [ys, ms, ds] =>
    match digitsVal? ys, digitsVal? ms, digitsVal? ds with
    | some y, some m, some d =>
      if 1 ≤ y ∧ 1 ≤ m ∧ m ≤ 12 ∧ 1 ≤ d ∧ d ≤ daysInMonth y m then
        some { year := y, month := m, day := d }
      else none
    | _, _, _ => none
  | _ => none

/-- A space character, the whitespace float() strips. -/
def isSpaceChar (c : Char) : Bool := c.toNat = 32

/-- The Python float constructor on strings, modelled for plain decimal
literals: optional sign, digits with at most one decimal point. -/
def parse_py_float (s : String) : Option ℚ :=
  let t := ((s.data.dropWhile isSpaceChar).reverse.dropWhile isSpaceChar).reverse
  let sgn : ℚ := match t with
    | c :: _ => if c = Char.ofNat 45 then -1 else 1
    | [] => 1
  let u := match t with
    | c :: rest => if c = Char.ofNat 45 ∨ c = Char.ofNat 43 then rest else t
    | [] => t
  match splitOnChar (Char.ofNat 46) u with
  | [a] => (digitsVal? a).map (fun n => sgn * n)
  | [a, b] =>
    if a = [] then (digitsVal? b).map (fun n => sgn * (n : ℚ) / (10 : ℚ) ^ b.length)
    else if b = [] then (digitsVal? a).map (fun n => sgn * n)
    else
      match digitsVal? a, digitsVal? b with
      | some x, some y => some (sgn * ((x : ℚ) + (y : ℚ) / (10 : ℚ) ^ b.length))
      | _, _ => none
  | _ => none

/-- The str() conversion applied to ids, names and currencies.  The
null case is unreachable behind the notna filter; numeric rendering
via the rational toString differs from float repr only in the trailing
".0" of integral values. -/
def cell_str : Cell → String
  | .str s => s
  | .num q => toString q
  | .null => "nan"

/-- The float() conversion of a cell; none models ValueError. -/
def cell_float : Cell → Option ℚ
  | .num q => some q
  | .str s => parse_py_float s
  | .null => none

/-- pd.to_datetime with errors coerce: an absent value or a failed
parse gives NaT, modelled as none. -/
def parse_pd_date : Option Cell → Option Date
  | some (.str s) => parse_iso_date s
  | _ => none

/-- The tabular synonym table of process_dataframe (identical in
swaps_analyzer.py and swaps_processor.py). -/
def column_mapping : List (String × List String) :=
  [("contract_id", ["contract_id", "id", "swap_id", "contractid", "dissemination identifier"]),
   ("counterparty", ["counterparty", "cp", "party", "prime brokerage transaction indicator"]),
   ("reference_entity", ["reference_entity", "reference", "underlying", "entity",
                         "underlying asset name", "underlier id-leg 1"]),
   ("notional_amount", ["notional_amount", "notional", "amount", "size", "notional amount-leg 1"]),
   ("currency", ["currency", "ccy", "curr", "notional currency-leg 1"]),
   ("effective_date", ["effective_date", "start_date", "trade_date"]),
   ("maturity_date", ["maturity_date", "end_date", "expiration date"]),
   ("swap_type", ["swap_type", "type", "product", "asset class"]),
   ("payment_frequency", ["payment_frequency", "freq", "payment",
                          "fixed rate payment frequency period-leg 1"]),
   ("fixed_rate", ["fixed_rate", "rate", "coupon", "fixed rate-leg 1"]),
   ("floating_rate_index", ["floating_rate_index", "index", "floating_index"]),
   ("floating_rate_spread", ["floating_rate_spread", "spread", "margin", "spread-leg 1"])]

/-- For each canonical field, the first synonym present among the
dataframe columns. -/
def actual_columns (cols : List String) : List (String × String) :=
  column_mapping.filterMap (fun p =>
    (p.2.find? (fun n => cols.contains n)).map (fun n => (p.1, n)))

/-- Per-row extraction: the value of the mapped column for each
canonical field, keeping only cells that pass pd.notna. -/
def extract_row_data (ac : List (String × String)) (row : Row) : Row :=
  ac.filterMap (fun p =>
    match lookupCell row p.2 with
    | some Cell.null => none
    | some c => some (p.1, c)
    | none => none)

/-- Enum coercion performed by the SwapContract post-init on the swap
type: absent keeps the dataclass default OTHER; a string is parsed
after lowercasing and an unrecognized one raises ValueError, dropping
the row.  A numeric cell in an enum column is outside the modelled
scope (Python would store it unconverted); no claim reaches this
corner. -/
def coerce_swap_type : Option Cell → Option SwapType
  | none => some SwapType.other
  | some (.str s) => SwapType.ofValue s.pyLower
  | some _ => none

/-- Enum coercion for the payment frequency: absent defaults to
QUARTERLY, an unrecognized string raises ValueError. -/
def coerce_payment_frequency : Option Cell → Option PaymentFrequency
  | none => some PaymentFrequency.quarterly
  | some (.str s) => PaymentFrequency.ofValue s.pyLower
  | some _ => none

/-- The notional conversion of the row loop: a missing value defaults
to zero, a present cell goes through float() and a failure skips the
row. -/
def row_notional (sd : Row) : Option ℚ :=
  match lookupCell sd "notional_amount" with
  | none => some 0
  | some c => cell_float c

/-- Processing of one dataframe row, modelling the per-row loop body of
process_dataframe: none is a skipped row, whether through the explicit
date and notional checks or through an exception of the contract
constructor caught by the per-row handler.  Missing identity and name
fields are defaulted, not skipped; a malformed fixed rate or spread
falls back to none without dropping the row. -/
def process_row (ac : List (String × String)) (row : Row) : Option SwapContract := do
  let sd := extract_row_data ac row
  let eff ← parse_pd_date (lookupCell sd "effective_date")
  let mat ← parse_pd_date (lookupCell sd "maturity_date")
  let notional ← row_notional sd
  let fixed := (lookupCell sd "fixed_rate").bind cell_float
  let spread := (lookupCell sd "floating_rate_spread").bind cell_float
  let st ← coerce_swap_type (lookupCell sd "swap_type")
  let pf ← coerce_payment_frequency (lookupCell sd "payment_frequency")
  pure
    { contract_id := ((lookupCell sd "contract_id").map cell_str).getD ""
      counterparty := ((lookupCell sd "counterparty").map cell_str).getD "UNKNOWN"
      reference_entity := ((lookupCell sd "reference_entity").map cell_str).getD "UNKNOWN"
      notional_amount := notional
      currency := ((lookupCell sd "currency").map cell_str).getD "USD"
      effective_date := eff
      maturity_date := mat
      swap_type := st
      payment_frequency := pf
      fixed_rate := fixed
      floating_rate_index := (lookupCell sd "floating_rate_index").map cell_str
      floating_rate_spread := spread
      additional_obligations := []
      additional_triggers := [] }

/-- process_dataframe: lowercase the column names, resolve the synonym
table once, then process the rows in order, skipped rows contributing
nothing. -/
def process_dataframe (df : DataFrame) : List SwapContract :=
  let cols := df.columns.map String.pyLower
  let ac := actual_columns cols
  (df.rows.map (fun r => r.map (fun p => (p.1.pyLower, p.2)))).filterMap (process_row ac)

/-- A JSON scalar; objects and arrays only flow into the opaque terms
fields and the data-key merge, which are outside the model. -/
inductive JsonVal where
  | str (s : String)
  | num (q : ℚ)
  | null
deriving DecidableEq, Repr

/-- A JSON object, as a key-value list. -/
abbrev JsonItem := List (String × JsonVal)

/-- The JSON synonym table of process_swap_item. -/
def json_field_mapping : List (String × List String) :=
  [("contract_id", ["contract_id", "id", "swap_id", "contractid"]),
   ("counterparty", ["counterparty", "cp", "party"]),
   ("reference_entity", ["reference_entity", "reference", "underlying", "entity"]),
   ("notional_amount", ["notional_amount", "notional", "amount", "size"]),
   ("currency", ["currency", "ccy", "curr"]),
   ("effective_date", ["effective_date", "start_date", "trade_date"]),
   ("maturity_date", ["maturity_date", "end_date", "expiry_date"]),
   ("swap_type", ["swap_type", "type", "product"]),
   ("payment_frequency", ["payment_frequency", "freq", "payment"]),
   ("fixed_rate", ["fixed_rate", "rate", "coupon"]),
   ("floating_rate_index", ["floating_rate_index", "index", "floating_index"]),
   ("floating_rate_spread", ["floating_rate_spread", "spread", "margin"]),
   ("collateral_terms", ["collateral_terms", "collateral", "margin_terms"]),
   ("additional_terms", ["additional_terms", "terms", "misc"])]

/-- Lowercase the keys and, for each canonical field, take the first
synonym whose value is present and not None. -/
def json_swap_data (item : JsonItem) : JsonItem :=
  let lowered := item.map (fun p => (p.1.pyLower, p.2))
  json_field_mapping.filterMap (fun p =>
    (p.2.findSome? (fun n =>
      match (lowered.find? (fun q => q.1 = n)).map (fun q => q.2) with
      | some JsonVal.null => none
      | some v => some v
      | none => none)).map (fun v => (p.1, v)))

/-- Value of a canonical field in the extracted JSON data. -/
def getJson (sd : JsonItem) (k : String) : Option JsonVal :=
  (sd.find? (fun p => p.1 = k)).map (fun p => p.2)

/-- The float() conversion of a JSON value. -/
def json_float : JsonVal → Option ℚ
  | .num q => some q
  | .str s => parse_py_float s
  | .null => none

/-- Rendering of a JSON value where the code stores it into a string
field. -/
def json_str : JsonVal → String
  | .str s => s
  | .num q => toString q
  | .null => "None"

/-- The six required canonical fields of the JSON path. -/
def required_fields : List String :=
  ["contract_id", "counterparty", "reference_entity",
   "notional_amount", "effective_date", "maturity_date"]

/-- Enum coercion of the post-init on a JSON swap type value. -/
def coerce_json_swap_type : Option JsonVal → Option SwapType
  | none => some SwapType.other
  | some (.str s) => SwapType.ofValue s.pyLower
  | some _ => none

/-- Enum coercion of the post-init on a JSON payment frequency. -/
def coerce_json_payment_frequency : Option JsonVal → Option PaymentFrequency
  | none => some PaymentFrequency.quarterly
  | some (.str s) => PaymentFrequency.ofValue s.pyLower
  | some _ => none

/-- The optional-float conversion of the JSON path: an absent key stays
None, a present value must convert or the item is dropped. -/
def json_opt_float (sd : JsonItem) (k : String) : Option (Option ℚ) :=
  match getJson sd k with
  | none => some none
  | some v => (json_float v).map some

/-- The date parsing the post-init performs on a JSON value: only a
string in the strict ISO format yields a date. -/
def json_date (sd : JsonItem) (k : String) : Option Date :=
  match getJson sd k with
  | some (.str s) => parse_iso_date s
  | _ => none

/-- process_swap_item: extract by synonym, reject an item missing a
required field, then build the contract; any ValueError of the float
conversions or of the post-init date and enum parsing is caught by the
caller and yields none.  A non-string date value is outside the
modelled scope. -/
def process_swap_item (item : JsonItem) : Option SwapContract := do
  let sd := json_swap_data item
  guard (required_fields.all (fun f => (getJson sd f).isSome))
  let notional ← (getJson sd "notional_amount").bind json_float
  let fixed ← json_opt_float sd "fixed_rate"
  let spread ← json_opt_float sd "floating_rate_spread"
  let eff ← json_date sd "effective_date"
  let mat ← json_date sd "maturity_date"
  let st ← coerce_json_swap_type (getJson sd "swap_type")
  let pf ← coerce_json_payment_frequency (getJson sd "payment_frequency")
  pure
    { contract_id := ((getJson sd "contract_id").map json_str).getD ""
      counterparty := ((getJson sd "counterparty").map json_str).getD ""
      reference_entity := ((getJson sd "reference_entity").map json_str).getD ""
      notional_amount := notional
      currency := ((getJson sd "currency").map json_str).getD "USD"
      effective_date := eff
      maturity_date := mat
      swap_type := st
      payment_frequency := pf
      fixed_rate := fixed
      floating_rate_index := (getJson sd "floating_rate_index").map json_str
      floating_rate_spread := spread
      additional_obligations := []
      additional_triggers := [] }

/-- process_json on a list of items: failed items contribute nothing
and processing continues. -/
def process_json (data : List JsonItem) : List SwapContract :=
  data.filterMap process_swap_item

/-- Decidability of the case-insensitive counterparty uniqueness. -/
instance (db : DB) : Decidable (cpNamesCIUnique db) := by
  unfold cpNamesCIUnique; infer_instance

/-- Decidability of the case-insensitive security uniqueness. -/
instance (db : DB) : Decidable (secIdentifiersCIUnique db) := by
  unfold secIdentifiersCIUnique; infer_instance

/-- Decidability of structural database well-formedness. -/
instance (db : DB) : Decidable (DB.wf db) := by
  unfold DB.wf; infer_instance


/-! ## Concrete instances used in statements and witnesses -/

/-- A concrete credit default swap. -/
def sampleCDS : SwapContract :=
  { contract_id := "CDS1", counterparty := "GS", reference_entity := "GME"
    notional_amount := 1000000, currency := "USD"
    effective_date := ⟨2025, 1, 1⟩, maturity_date := ⟨2026, 1, 1⟩
    swap_type := .credit_default, payment_frequency := .quarterly
    fixed_rate := none, floating_rate_index := none, floating_rate_spread := none
    additional_obligations := [], additional_triggers := [] }

/-- A concrete interest rate swap with a 4 percent fixed rate paid
quarterly on a notional of one million. -/
def sampleIRS : SwapContract :=
  { contract_id := "IRS1", counterparty := "MS", reference_entity := "LIBOR"
    notional_amount := 1000000, currency := "USD"
    effective_date := ⟨2025, 1, 1⟩, maturity_date := ⟨2030, 1, 1⟩
    swap_type := .interest_rate, payment_frequency := .quarterly
    fixed_rate := some 4, floating_rate_index := none, floating_rate_spread := none
    additional_obligations := [], additional_triggers := [] }

/-- The same interest rate swap with a zero fixed rate present. -/
def sampleIRS0 : SwapContract :=
  { sampleIRS with fixed_rate := some 0 }

/-- A save_swap payload whose counterparty name is an upper-case
variant of an existing row. -/
def gsSwapData : SwapData :=
  { contract_id := "C1", counterparty := "GOLDMAN SACHS", reference_entity := "GME"
    notional_amount := 1000, currency := "USD"
    effective_date := ⟨2025, 1, 1⟩, maturity_date := ⟨2026, 1, 1⟩
    swap_type := some "credit_default", payment_frequency := some "quarterly"
    fixed_rate := none, floating_rate_index := none, floating_rate_spread := none
    collateral_terms := none, additional_terms := none }

/-- The content fields of a stored swap row agree with a save_swap
payload, with the update stamp refreshed to the given time: the claim
phrase for a full-field replacement. -/
abbrev row_reflects (row : SwapRow) (d : SwapData) (now : ℕ) : Prop :=
  row.contract_id = d.contract_id ∧
  row.reference_entity = d.reference_entity ∧
  row.notional_amount = d.notional_amount ∧
  row.currency = d.currency ∧
  row.effective_date = d.effective_date ∧
  row.maturity_date = d.maturity_date ∧
  row.swap_type = d.swap_type ∧
  row.payment_frequency = d.payment_frequency ∧
  row.fixed_rate = d.fixed_rate ∧
  row.floating_rate_index = d.floating_rate_index ∧
  row.floating_rate_spread = d.floating_rate_spread ∧
  row.collateral_terms = d.collateral_terms ∧
  row.additional_terms = d.additional_terms ∧
  row.updated_at = now

/-- A second save_swap payload for the same contract with a different
notional and the counterparty name in its stored casing. -/
def gsSwapData2 : SwapData :=
  { gsSwapData with counterparty := "Goldman Sachs", notional_amount := 2000 }

/-- A concrete database with two contracts, obligations on both, an
active and an inactive trigger, and instruments on both. -/
def sampleDB : DB :=
  { counterparties := [⟨1, "GS"⟩]
    securities := [⟨1, "GME", none, none⟩]
    swaps :=
      [{ id := 1, contract_id := "A", counterparty_id := 1, reference_entity := "GME"
         notional_amount := 10, currency := "USD", effective_date := ⟨2025, 1, 1⟩
         maturity_date := ⟨2026, 1, 1⟩, swap_type := some "credit_default"
         payment_frequency := some "quarterly", fixed_rate := none
         floating_rate_index := none, floating_rate_spread := none
         collateral_terms := none, additional_terms := none
         created_at := 0, updated_at := 0 },
       { id := 2, contract_id := "B", counterparty_id := 1, reference_entity := "GME"
         notional_amount := 20, currency := "USD", effective_date := ⟨2025, 1, 1⟩
         maturity_date := ⟨2026, 1, 1⟩, swap_type := some "equity"
         payment_frequency := some "quarterly", fixed_rate := none
         floating_rate_index := none, floating_rate_spread := none
         collateral_terms := none, additional_terms := none
         created_at := 0, updated_at := 0 }]
    obligations :=
      [{ id := 1, swap_id := 1, obligation_type := "premium_payment", amount := 1
         currency := "USD", due_date := none, status := some "pending", description := none },
       { id := 2, swap_id := 1, obligation_type := "protection_payment", amount := 10
         currency := "USD", due_date := none, status := some "contingent", description := none },
       { id := 3, swap_id := 2, obligation_type := "custom", amount := 5
         currency := "USD", due_date := none, status := some "pending", description := none }]
    triggers :=
      [{ id := 1, obligation_id := 1, trigger_type := "time_based"
         trigger_condition := "date >= 2025-04-01", description := none, is_active := true },
       { id := 2, obligation_id := 3, trigger_type := "custom"
         trigger_condition := "never", description := none, is_active := false }]
    instruments :=
      [{ id := 1, swap_id := 1, instrument_type := "equity", security_id := 1
         description := none, quantity := none, notional_amount := none, currency := none },
       { id := 2, swap_id := 2, instrument_type := "equity", security_id := 1
         description := none, quantity := none, notional_amount := none, currency := none }]
    next_counterparty_id := 2, next_security_id := 2, next_swap_id := 3
    next_instrument_id := 3, clock := 7 }

/-- A concrete database for the view: contract V1 with no obligations
and no instruments, contract V2 with two obligations, one instrument
and no triggers. -/
def sampleViewDB : DB :=
  { counterparties := [⟨1, "GS"⟩]
    securities := [⟨1, "GME", none, none⟩]
    swaps :=
      [{ id := 1, contract_id := "V1", counterparty_id := 1, reference_entity := "GME"
         notional_amount := 10, currency := "USD", effective_date := ⟨2025, 1, 1⟩
         maturity_date := ⟨2026, 1, 1⟩, swap_type := some "equity"
         payment_frequency := some "quarterly", fixed_rate := none
         floating_rate_index := none, floating_rate_spread := none
         collateral_terms := none, additional_terms := none
         created_at := 0, updated_at := 0 },
       { id := 2, contract_id := "V2", counterparty_id := 1, reference_entity := "GME"
         notional_amount := 20, currency := "USD", effective_date := ⟨2025, 1, 1⟩
         maturity_date := ⟨2026, 1, 1⟩, swap_type := some "credit_default"
         payment_frequency := some "quarterly", fixed_rate := none
         floating_rate_index := none, floating_rate_spread := none
         collateral_terms := none, additional_terms := none
         created_at := 0, updated_at := 0 }]
    obligations :=
      [{ id := 1, swap_id := 2, obligation_type := "premium_payment", amount := 1
         currency := "USD", due_date := none, status := some "pending", description := none },
       { id := 2, swap_id := 2, obligation_type := "protection_payment", amount := 20
         currency := "USD", due_date := none, status := some "contingent", description := none }]
    triggers := []
    instruments :=
      [{ id := 1, swap_id := 2, instrument_type := "equity", security_id := 1
         description := none, quantity := none, notional_amount := none, currency := none }]
    next_counterparty_id := 2, next_security_id := 2, next_swap_id := 3
    next_instrument_id := 2, clock := 3 }

/-- Columns of a dataframe carrying only the two date fields. -/
def c6Columns : List String := ["effective_date", "maturity_date"]

/-- A tabular row with valid dates and every identity, name and amount
field missing. -/
def c6Row : Row :=
  [("effective_date", Cell.str "2025-01-01"), ("maturity_date", Cell.str "2026-01-01")]

/-- Columns of a full tabular source. -/
def c7Columns : List String :=
  ["contract_id", "counterparty", "reference_entity", "notional_amount",
   "currency", "effective_date", "maturity_date", "swap_type", "payment_frequency"]

/-- A fully valid tabular row except that its swap type string matches
no enum value. -/
def c7BadTypeRow : Row :=
  [("contract_id", Cell.str "S1"), ("counterparty", Cell.str "GS"),
   ("reference_entity", Cell.str "GME"), ("notional_amount", Cell.num 1000000),
   ("currency", Cell.str "USD"), ("effective_date", Cell.str "2025-01-01"),
   ("maturity_date", Cell.str "2026-01-01"), ("swap_type", Cell.str "swaption"),
   ("payment_frequency", Cell.str "quarterly")]

/-- A fully valid tabular row with no swap type and no payment
frequency column value. -/
def c7DefaultRow : Row :=
  [("contract_id", Cell.str "S2"), ("counterparty", Cell.str "GS"),
   ("reference_entity", Cell.str "GME"), ("notional_amount", Cell.num 500),
   ("currency", Cell.str "USD"), ("effective_date", Cell.str "2025-01-01"),
   ("maturity_date", Cell.str "2026-01-01")]

/-- The resolved synonym columns of the full tabular source. -/
def c7ac : List (String × String) := actual_columns c7Columns

/-- A tabular row whose dates are valid but whose notional does not
parse as a number. -/
def c6BadNotionalRow : Row :=
  [("contract_id", Cell.str "S3"), ("counterparty", Cell.str "GS"),
   ("reference_entity", Cell.str "GME"),
   ("notional_amount", Cell.str "invalid_notional"),
   ("currency", Cell.str "USD"), ("effective_date", Cell.str "2025-01-01"),
   ("maturity_date", Cell.str "2026-01-01")]

/-- A tabular row whose maturity date does not parse. -/
def c6BadDateRow : Row :=
  [("contract_id", Cell.str "S4"), ("counterparty", Cell.str "GS"),
   ("reference_entity", Cell.str "GME"), ("notional_amount", Cell.num 7),
   ("currency", Cell.str "USD"), ("effective_date", Cell.str "2025-01-01"),
   ("maturity_date", Cell.str "2026-02-30")]

/-- A JSON item missing the contract_id required field. -/
def c6MissingJson : JsonItem :=
  [("cp", JsonVal.str "GS"), ("underlying", JsonVal.str "GME"),
   ("notional", JsonVal.num 500), ("start_date", JsonVal.str "2025-01-01"),
   ("end_date", JsonVal.str "2026-01-01")]

/-- A JSON item with all required fields whose effective date is not a
valid calendar date. -/
def c6BadDateJson : JsonItem :=
  [("id", JsonVal.str "J2"), ("cp", JsonVal.str "GS"),
   ("underlying", JsonVal.str "GME"), ("notional", JsonVal.num 500),
   ("start_date", JsonVal.str "2025-13-40"), ("end_date", JsonVal.str "2026-01-01")]

/-! ## Theorems -/

/-- C2: a CREDIT_DEFAULT contract derives exactly one premium payment
obligation of one percent of the notional in the contract currency,
pending, due one payment period after the effective date and carrying
exactly one time-based trigger, and exactly one contingent protection
payment obligation of the full notional with no due date carrying
exactly one credit-event trigger conditioned on the reference entity;
nothing else is auto-derived beyond the explicit additional-terms
obligations and triggers, which are appended verbatim. -/
theorem C2_cds_derivation (c : SwapContract)
    (h : c.swap_type = SwapType.credit_default) :
    extract_obligations c =
      { obligation_type := "premium_payment"
        amount := c.notional_amount * (1 / 100)
        currency := c.currency
        due_date := some (calculate_next_payment_date c.effective_date c.payment_frequency)
        status := "pending"
        description := "Credit default swap premium payment" } ::
      { obligation_type := "protection_payment"
        amount := c.notional_amount
        currency := c.currency
        due_date := none
        status := "contingent"
        description := "Protection payment upon credit event" } ::
      c.additional_obligations ∧
    extract_obligation_triggers c
      { obligation_type := "premium_payment"
        amount := c.notional_amount * (1 / 100)
        currency := c.currency
        due_date := some (calculate_next_payment_date c.effective_date c.payment_frequency)
        status := "pending"
        description := "Credit default swap premium payment" } =
      { trigger_type := "time_based"
        trigger_condition := "date >= " ++
          (calculate_next_payment_date c.effective_date c.payment_frequency).toIso
        description := "Payment due on " ++
          (calculate_next_payment_date c.effective_date c.payment_frequency).toIso
        is_active := true } :: c.additional_triggers ∧
    extract_obligation_triggers c
      { obligation_type := "protection_payment"
        amount := c.notional_amount
        currency := c.currency
        due_date := none
        status := "contingent"
        description := "Protection payment upon credit event" } =
      { trigger_type := "credit_event"
        trigger_condition := "credit_event(" ++ c.reference_entity ++ ") = true"
        description := "Credit event on " ++ c.reference_entity
        is_active := true } :: c.additional_triggers := by
  refine ⟨?_, ?_, ?_⟩ <;>
    simp [extract_obligations, extract_obligation_triggers, due_date_text, h]

/-- Witness for C2 at the concrete credit default swap. -/
theorem C2_cds_derivation_witness :
    sampleCDS.swap_type = SwapType.credit_default ∧
    extract_obligations sampleCDS =
      { obligation_type := "premium_payment"
        amount := sampleCDS.notional_amount * (1 / 100)
        currency := sampleCDS.currency
        due_date := some (calculate_next_payment_date sampleCDS.effective_date sampleCDS.payment_frequency)
        status := "pending"
        description := "Credit default swap premium payment" } ::
      { obligation_type := "protection_payment"
        amount := sampleCDS.notional_amount
        currency := sampleCDS.currency
        due_date := none
        status := "contingent"
        description := "Protection payment upon credit event" } ::
      sampleCDS.additional_obligations ∧
    extract_obligation_triggers sampleCDS
      { obligation_type := "premium_payment"
        amount := sampleCDS.notional_amount * (1 / 100)
        currency := sampleCDS.currency
        due_date := some (calculate_next_payment_date sampleCDS.effective_date sampleCDS.payment_frequency)
        status := "pending"
        description := "Credit default swap premium payment" } =
      { trigger_type := "time_based"
        trigger_condition := "date >= " ++
          (calculate_next_payment_date sampleCDS.effective_date sampleCDS.payment_frequency).toIso
        description := "Payment due on " ++
          (calculate_next_payment_date sampleCDS.effective_date sampleCDS.payment_frequency).toIso
        is_active := true } :: sampleCDS.additional_triggers ∧
    extract_obligation_triggers sampleCDS
      { obligation_type := "protection_payment"
        amount := sampleCDS.notional_amount
        currency := sampleCDS.currency
        due_date := none
        status := "contingent"
        description := "Protection payment upon credit event" } =
      { trigger_type := "credit_event"
        trigger_condition := "credit_event(" ++ sampleCDS.reference_entity ++ ") = true"
        description := "Credit event on " ++ sampleCDS.reference_entity
        is_active := true } :: sampleCDS.additional_triggers :=
  ⟨rfl, C2_cds_derivation sampleCDS rfl⟩

/-- C3 counterexample: an INTEREST_RATE contract whose fixed_rate field
is present but zero derives no obligation at all, refuting the claim
that presence of the field alone yields a fixed payment obligation. -/
theorem C3_zero_rate_counterexample :
    sampleIRS0.swap_type = SwapType.interest_rate ∧
    sampleIRS0.fixed_rate = some 0 ∧
    extract_obligations sampleIRS0 = [] := by
  refine ⟨rfl, rfl, ?_⟩
  simp [extract_obligations, sampleIRS0, sampleIRS]

/-- C3 amended: an INTEREST_RATE contract whose fixed_rate is present
and nonzero derives a fixed payment obligation, first in the list, of
notional times rate over one hundred divided by the payments per year
of the frequency, due one period after the effective date, carrying
exactly one time-based trigger before the explicit additional-terms
triggers; the payments-per-year table and the period table are as
claimed, and the concrete instance with rate 4, quarterly frequency
and notional one million yields amount 10000 due three months after
the effective date. -/
theorem C3_interest_rate_fixed_payment (c : SwapContract) (r : ℚ)
    (hty : c.swap_type = SwapType.interest_rate)
    (hr : c.fixed_rate = some r) (hr0 : r ≠ 0) :
    (extract_obligations c).head? = some
      { obligation_type := "fixed_payment"
        amount := c.notional_amount * (r / 100) /
          (payment_frequency_factor c.payment_frequency : ℚ)
        currency := c.currency
        due_date := some (calculate_next_payment_date c.effective_date c.payment_frequency)
        status := "pending"
        description := "Fixed rate payment at " ++ toString r ++ "%" } ∧
    extract_obligation_triggers c
      { obligation_type := "fixed_payment"
        amount := c.notional_amount * (r / 100) /
          (payment_frequency_factor c.payment_frequency : ℚ)
        currency := c.currency
        due_date := some (calculate_next_payment_date c.effective_date c.payment_frequency)
        status := "pending"
        description := "Fixed rate payment at " ++ toString r ++ "%" } =
      { trigger_type := "time_based"
        trigger_condition := "date >= " ++
          (calculate_next_payment_date c.effective_date c.payment_frequency).toIso
        description := "Payment due on " ++
          (calculate_next_payment_date c.effective_date c.payment_frequency).toIso
        is_active := true } :: c.additional_triggers ∧
    (payment_frequency_factor .daily, payment_frequency_factor .weekly,
     payment_frequency_factor .monthly, payment_frequency_factor .quarterly,
     payment_frequency_factor .semi_annual, payment_frequency_factor .annual,
     payment_frequency_factor .at_maturity) = (365, 52, 12, 4, 2, 1, 1) ∧
    (∀ d : Date,
      calculate_next_payment_date d .monthly = d.addMonths 1 ∧
      calculate_next_payment_date d .quarterly = d.addMonths 3 ∧
      calculate_next_payment_date d .semi_annual = d.addMonths 6 ∧
      calculate_next_payment_date d .annual = d.addMonths 12 ∧
      calculate_next_payment_date d .daily = d.addMonths 3 ∧
      calculate_next_payment_date d .weekly = d.addMonths 3 ∧
      calculate_next_payment_date d .at_maturity = d.addMonths 3) ∧
    extract_obligations sampleIRS =
      [{ obligation_type := "fixed_payment"
         amount := 10000
         currency := "USD"
         due_date := some ⟨2025, 4, 1⟩
         status := "pending"
         description := "Fixed rate payment at " ++ toString (4 : ℚ) ++ "%" }] ∧
    (⟨2025, 4, 1⟩ : Date) = sampleIRS.effective_date.addMonths 3 := by
  refine ⟨?_, ?_, rfl, fun d => ⟨rfl, rfl, rfl, rfl, rfl, rfl, rfl⟩, ?_, ?_⟩
  · simp [extract_obligations, hty, hr, hr0]
  · simp [extract_obligation_triggers, due_date_text]
  · simp [extract_obligations, sampleIRS, calculate_next_payment_date,
      payment_frequency_factor, Date.addMonths, daysInMonth, isLeapYear]
    norm_num
  · decide

/-- Witness for C3 amended at the concrete interest rate swap. -/
theorem C3_interest_rate_fixed_payment_witness :
    sampleIRS.swap_type = SwapType.interest_rate ∧
    sampleIRS.fixed_rate = some 4 ∧ (4 : ℚ) ≠ 0 ∧
    (extract_obligations sampleIRS).head? = some
      { obligation_type := "fixed_payment"
        amount := sampleIRS.notional_amount * ((4 : ℚ) / 100) /
          (payment_frequency_factor sampleIRS.payment_frequency : ℚ)
        currency := sampleIRS.currency
        due_date := some (calculate_next_payment_date sampleIRS.effective_date sampleIRS.payment_frequency)
        status := "pending"
        description := "Fixed rate payment at " ++ toString (4 : ℚ) ++ "%" } :=
  ⟨rfl, rfl, by norm_num,
   (C3_interest_rate_fixed_payment sampleIRS 4 rfl rfl (by norm_num)).1⟩

/-- C10: for an INTEREST_RATE contract whose fixed_rate is present but
equal to zero, the deriver behaves exactly as if the rate were absent:
the derived obligations coincide with those of the contract with the
rate removed, and any fixed payment obligation in the output can only
be an explicit additional-terms one; triggers never depend on the
rate. -/
theorem C10_zero_rate_like_absent (c : SwapContract)
    (hty : c.swap_type = SwapType.interest_rate)
    (h0 : c.fixed_rate = some 0) :
    extract_obligations c = extract_obligations { c with fixed_rate := none } ∧
    (∀ o ∈ extract_obligations c,
      o.obligation_type = "fixed_payment" → o ∈ c.additional_obligations) ∧
    (∀ o : Obligation, extract_obligation_triggers c o =
      extract_obligation_triggers { c with fixed_rate := none } o) := by
  refine ⟨?_, ?_, fun o => rfl⟩
  · simp [extract_obligations, hty, h0]
  · intro o ho hfp
    simp [extract_obligations, hty, h0] at ho
    rcases ho with ho | ho
    · cases hfl : c.floating_rate_index with
      | none => rw [hfl] at ho; simp at ho
      | some idx =>
        rw [hfl] at ho
        by_cases hidx : idx = ""
        · simp [hidx] at ho
        · simp [hidx] at ho
          rw [ho] at hfp
          simp at hfp
    · exact ho

/-- Witness for C10 at the zero-rate interest rate swap. -/
theorem C10_zero_rate_like_absent_witness :
    sampleIRS0.swap_type = SwapType.interest_rate ∧
    sampleIRS0.fixed_rate = some 0 ∧
    extract_obligations sampleIRS0 =
      extract_obligations { sampleIRS0 with fixed_rate := none } :=
  ⟨rfl, rfl, (C10_zero_rate_like_absent sampleIRS0 rfl rfl).1⟩


/-- C5 counterexample: resolving a counterparty and then saving a swap
whose counterparty name differs only in case leaves two counterparty
rows with case-insensitively equal names, because save_swap matches
names case-sensitively; the claimed invariant fails after this two-step
write sequence from the empty database. -/
theorem C5_ci_uniqueness_counterexample :
    ¬ cpNamesCIUnique (emptyDB.applyOps
      [WriteOp.getOrCreateCounterparty "Goldman Sachs", WriteOp.saveSwap gsSwapData]) ∧
    (emptyDB.applyOps
      [WriteOp.getOrCreateCounterparty "Goldman Sachs", WriteOp.saveSwap gsSwapData]
    ).counterparties.map CounterpartyRow.name = ["Goldman Sachs", "GOLDMAN SACHS"] := by
  refine ⟨?_, by decide⟩
  decide

/-- C5 amended: the get-or-create resolvers do preserve case-insensitive
uniqueness of counterparty names and security identifiers, insert at
most one row per call, and calling them twice with the same name in any
casing returns the same row the second time while changing nothing;
save_swap, in contrast, matches counterparty names case-sensitively and
can insert a case-variant duplicate. -/
theorem C5_get_or_create_dedup (db : DB) (n1 n2 i1 i2 : String)
    (hn : n1.pyLower = n2.pyLower) (hi : i1.pyLower = i2.pyLower)
    (hcp : cpNamesCIUnique db) (hsec : secIdentifiersCIUnique db) :
    cpNamesCIUnique (db.get_or_create_counterparty n1).1 ∧
    (db.get_or_create_counterparty n1).1.counterparties.length ≤
      db.counterparties.length + 1 ∧
    (db.get_or_create_counterparty n1).1.get_or_create_counterparty n2 =
      ((db.get_or_create_counterparty n1).1, (db.get_or_create_counterparty n1).2) ∧
    secIdentifiersCIUnique (db.get_or_create_security i1).1 ∧
    (db.get_or_create_security i1).1.securities.length ≤
      db.securities.length + 1 ∧
    (db.get_or_create_security i1).1.get_or_create_security i2 =
      ((db.get_or_create_security i1).1, (db.get_or_create_security i1).2) := by
  have hpredn : (fun c : CounterpartyRow => decide (c.name.pyLower = n2.pyLower)) =
      (fun c : CounterpartyRow => decide (c.name.pyLower = n1.pyLower)) := by
    funext c; rw [hn]
  have hpredi : (fun r : SecurityRow => decide (r.identifier.pyLower = i2.pyLower)) =
      (fun r : SecurityRow => decide (r.identifier.pyLower = i1.pyLower)) := by
    funext r; rw [hi]
  have cp3 : cpNamesCIUnique (db.get_or_create_counterparty n1).1 ∧
      (db.get_or_create_counterparty n1).1.counterparties.length ≤
        db.counterparties.length + 1 ∧
      (db.get_or_create_counterparty n1).1.get_or_create_counterparty n2 =
        ((db.get_or_create_counterparty n1).1, (db.get_or_create_counterparty n1).2) := by
    unfold DB.get_or_create_counterparty
    rcases hfind : db.counterparties.find? (fun c => c.name.pyLower = n1.pyLower) with _ | c
    · simp only [hfind]
      refine ⟨?_, by simp, ?_⟩
      · refine List.pairwise_append.mpr ⟨hcp, by simp, ?_⟩
        intro a ha b hb
        simp only [List.mem_singleton] at hb
        subst hb
        have h2 := List.find?_eq_none.mp hfind a ha
        simpa using h2
      · simp only [hpredn, List.find?_append, hfind]
        simp [hn]
    · simp only [hfind]
      refine ⟨hcp, by simp, ?_⟩
      simp only [hpredn, hfind]
  have sec3 : secIdentifiersCIUnique (db.get_or_create_security i1).1 ∧
      (db.get_or_create_security i1).1.securities.length ≤
        db.securities.length + 1 ∧
      (db.get_or_create_security i1).1.get_or_create_security i2 =
        ((db.get_or_create_security i1).1, (db.get_or_create_security i1).2) := by
    unfold DB.get_or_create_security
    rcases hfind : db.securities.find? (fun r => r.identifier.pyLower = i1.pyLower) with _ | r
    · simp only [hfind]
      refine ⟨?_, by simp, ?_⟩
      · refine List.pairwise_append.mpr ⟨hsec, by simp, ?_⟩
        intro a ha b hb
        simp only [List.mem_singleton] at hb
        subst hb
        have h2 := List.find?_eq_none.mp hfind a ha
        simpa using h2
      · simp only [hpredi, List.find?_append, hfind]
        simp [hi]
    · simp only [hfind]
      refine ⟨hsec, by simp, ?_⟩
      simp only [hpredi, hfind]
  exact ⟨cp3.1, cp3.2.1, cp3.2.2, sec3.1, sec3.2.1, sec3.2.2⟩

/-- Witness for C5 amended at concrete names in two casings. -/
theorem C5_get_or_create_dedup_witness :
    "Goldman Sachs".pyLower = "GOLDMAN SACHS".pyLower ∧
    "GME".pyLower = "gme".pyLower ∧
    cpNamesCIUnique emptyDB ∧ secIdentifiersCIUnique emptyDB ∧
    (emptyDB.get_or_create_counterparty "Goldman Sachs").1.get_or_create_counterparty
        "GOLDMAN SACHS" =
      ((emptyDB.get_or_create_counterparty "Goldman Sachs").1,
       (emptyDB.get_or_create_counterparty "Goldman Sachs").2) :=
  ⟨by decide, by decide, by decide, by decide,
   (C5_get_or_create_dedup emptyDB "Goldman Sachs" "GOLDMAN SACHS" "GME" "gme"
     (by decide) (by decide) (by decide) (by decide)).2.2.1⟩


/-- Replacing the first match keeps the list length. -/
theorem updateFirst_length (p : α → Bool) (f : α → α) (xs : List α) :
    (updateFirst p f xs).length = xs.length := by
  induction xs with
  | nil => rfl
  | cons y ys ih => by_cases h : p y <;> simp [updateFirst, h, ih]

/-- Membership after replacing the first match. -/
theorem mem_updateFirst {p : α → Bool} {f : α → α} {xs : List α} {b : α}
    (hb : b ∈ updateFirst p f xs) :
    b ∈ xs ∨ ∃ z ∈ xs, p z = true ∧ b = f z := by
  induction xs with
  | nil => simp [updateFirst] at hb
  | cons y ys ih =>
    by_cases h : p y
    · simp only [updateFirst, if_pos h, List.mem_cons] at hb
      rcases hb with hb | hb
      · exact Or.inr ⟨y, List.mem_cons_self y ys, h, hb⟩
      · exact Or.inl (List.mem_cons_of_mem y hb)
    · simp only [updateFirst, if_neg h, List.mem_cons] at hb
      rcases hb with hb | hb
      · exact Or.inl (hb ▸ List.mem_cons_self y ys)
      · rcases ih hb with hb | ⟨z, hz, hpz, hbz⟩
        · exact Or.inl (List.mem_cons_of_mem y hb)
        · exact Or.inr ⟨z, List.mem_cons_of_mem y hz, hpz, hbz⟩

/-- Key distinctness survives the replacement of the first key match
when the replacement keeps the matched key. -/
theorem pairwise_key_updateFirst {α} (key : α → String) (k : String) (f : α → α)
    (hkf : ∀ y, key y = k → key (f y) = k) :
    ∀ xs : List α, xs.Pairwise (fun a b => key a ≠ key b) →
      (updateFirst (fun y => key y = k) f xs).Pairwise (fun a b => key a ≠ key b) := by
  intro xs hp
  induction xs with
  | nil => exact hp
  | cons y ys ih =>
    rcases List.pairwise_cons.mp hp with ⟨hy, hys⟩
    by_cases h : key y = k
    · have hred : updateFirst (fun z => decide (key z = k)) f (y :: ys) = f y :: ys := by
        simp [updateFirst, h]
      rw [hred]
      refine List.pairwise_cons.mpr ⟨?_, hys⟩
      intro b hb
      rw [hkf y h, ← h]
      exact hy b hb
    · have hred : updateFirst (fun z => decide (key z = k)) f (y :: ys) =
          y :: updateFirst (fun z => decide (key z = k)) f ys := by
        simp [updateFirst, h]
      rw [hred]
      refine List.pairwise_cons.mpr ⟨?_, ih (List.pairwise_cons.mp hp).2⟩
      intro b hb
      rcases mem_updateFirst hb with hb | ⟨z, hz, hpz, hbz⟩
      · exact hy b hb
      · have hzk : key z = k := by simpa using hpz
        have hbk : key b = k := hbz ▸ hkf z hzk
        rw [hbk]
        exact fun hyk => h hyk

/-- A key-distinct list filtered at the key of its first match yields
exactly that match. -/
theorem filter_single_of_pairwise {α} (key : α → String) (k : String) :
    ∀ (xs : List α) (x : α), xs.Pairwise (fun a b => key a ≠ key b) →
      xs.find? (fun y => key y = k) = some x →
      xs.filter (fun y => key y = k) = [x] := by
  intro xs
  induction xs with
  | nil => intro x _ hf; simp at hf
  | cons y ys ih =>
    intro x hp hf
    rcases List.pairwise_cons.mp hp with ⟨hy, hys⟩
    by_cases h : key y = k
    · rw [List.find?_cons_of_pos _ (by simpa using h)] at hf
      have hxy : x = y := (Option.some_inj.mp hf).symm
      subst hxy
      rw [List.filter_cons_of_pos (by simpa using h)]
      have hnil : ys.filter (fun z => key z = k) = [] := by
        rw [List.filter_eq_nil_iff]
        intro a ha
        have hne := hy a ha
        simp only [decide_eq_true_eq]
        exact fun hak => hne (by rw [h, hak])
      rw [hnil]
    · rw [List.find?_cons_of_neg _ (by simpa using h)] at hf
      rw [List.filter_cons_of_neg (by simpa using h)]
      exact ih x hys hf

/-- Filtering at the key after replacing the first key match yields
exactly the replaced element. -/
theorem updateFirst_filter_single {α} (key : α → String) (k : String) (f : α → α)
    (hkf : ∀ y, key (f y) = k) :
    ∀ (xs : List α) (x : α), xs.Pairwise (fun a b => key a ≠ key b) →
      xs.find? (fun y => key y = k) = some x →
      (updateFirst (fun y => key y = k) f xs).filter (fun y => key y = k) = [f x] := by
  intro xs
  induction xs with
  | nil => intro x _ hf; simp at hf
  | cons y ys ih =>
    intro x hp hf
    rcases List.pairwise_cons.mp hp with ⟨hy, hys⟩
    by_cases h : key y = k
    · rw [List.find?_cons_of_pos _ (by simpa using h)] at hf
      have hxy : x = y := (Option.some_inj.mp hf).symm
      subst hxy
      have hred : updateFirst (fun z => decide (key z = k)) f (x :: ys) = f x :: ys := by
        simp [updateFirst, h]
      rw [hred]
      rw [List.filter_cons_of_pos (by simpa using hkf x)]
      have hnil : ys.filter (fun z => key z = k) = [] := by
        rw [List.filter_eq_nil_iff]
        intro a ha
        have hne := hy a ha
        simp only [decide_eq_true_eq]
        exact fun hak => hne (by rw [h, hak])
      rw [hnil]
    · rw [List.find?_cons_of_neg _ (by simpa using h)] at hf
      have hred : updateFirst (fun z => decide (key z = k)) f (y :: ys) =
          y :: updateFirst (fun z => decide (key z = k)) f ys := by
        simp [updateFirst, h]
      rw [hred]
      rw [List.filter_cons_of_neg (by simpa using h)]
      exact ih x hys hf

/-- Membership in a contract_id filter from membership and the key. -/
theorem mem_contract_filter {l : List SwapRow} {row : SwapRow} (k : String)
    (hrow : row ∈ l) (h : row.contract_id = k) :
    row ∈ l.filter (fun s => s.contract_id = k) :=
  List.mem_filter.mpr ⟨hrow, by simpa using h⟩

/-- Specialisation of the pairwise lemma to the save_swap overwrite. -/
theorem overwrite_updateFirst_pairwise (d : SwapData) (cpid now : ℕ)
    (xs : List SwapRow) (hp : xs.Pairwise (fun a b => a.contract_id ≠ b.contract_id)) :
    (updateFirst (fun s => s.contract_id = d.contract_id)
      (overwriteSwapRow d cpid now) xs).Pairwise
        (fun a b => a.contract_id ≠ b.contract_id) :=
  pairwise_key_updateFirst SwapRow.contract_id d.contract_id
    (overwriteSwapRow d cpid now) (fun _ _ => rfl) xs hp

/-- Specialisation of the filter lemma to the save_swap overwrite. -/
theorem overwrite_updateFirst_filter (d : SwapData) (cpid now : ℕ)
    (xs : List SwapRow) (x : SwapRow)
    (hp : xs.Pairwise (fun a b => a.contract_id ≠ b.contract_id))
    (hf : xs.find? (fun s => s.contract_id = d.contract_id) = some x) :
    (updateFirst (fun s => s.contract_id = d.contract_id)
      (overwriteSwapRow d cpid now) xs).filter
        (fun s => s.contract_id = d.contract_id) = [overwriteSwapRow d cpid now x] :=
  updateFirst_filter_single SwapRow.contract_id d.contract_id
    (overwriteSwapRow d cpid now) (fun _ => rfl) xs x hp hf

/-- Behaviour of one save_swap call on a well-formed swaps table: the
unique constraint is preserved, exactly one row carries the saved
contract_id afterwards and its content equals the payload with the
update stamp refreshed, the table grows only when the contract_id was
unseen, and the clock advances. -/
theorem save_swap_spec (db : DB) (d : SwapData)
    (hwf : db.swaps.Pairwise (fun a b => a.contract_id ≠ b.contract_id))
    (hcp : d.counterparty ≠ "") :
    ((db.save_swap d).1).swaps.Pairwise (fun a b => a.contract_id ≠ b.contract_id) ∧
    ((db.save_swap d).1).swaps.countP (fun s => s.contract_id = d.contract_id) = 1 ∧
    (∀ row ∈ ((db.save_swap d).1).swaps, row.contract_id = d.contract_id →
      row_reflects row d db.clock) ∧
    ((∃ x ∈ db.swaps, x.contract_id = d.contract_id) →
      ((db.save_swap d).1).swaps.length = db.swaps.length) ∧
    ((¬ ∃ x ∈ db.swaps, x.contract_id = d.contract_id) →
      ((db.save_swap d).1).swaps.length = db.swaps.length + 1) ∧
    ((db.save_swap d).1).clock = db.clock + 1 := by
  unfold DB.save_swap
  rw [if_neg hcp]
  rcases hcpf : db.counterparties.find? (fun c => c.name = d.counterparty) with _ | c <;>
    simp only [hcpf] <;>
    rcases hsf : db.swaps.find? (fun s => s.contract_id = d.contract_id) with _ | s0 <;>
      simp only [hsf]
  all_goals
    first
    | -- insert path: the contract_id was unseen
      (have hnone : ∀ x ∈ db.swaps, ¬ (x.contract_id = d.contract_id) := by
         intro x hx
         have hx2 := List.find?_eq_none.mp hsf x hx
         simpa using hx2
       refine ⟨?_, ?_, ?_, ?_, ?_, by trivial⟩
       · refine List.pairwise_append.mpr ⟨hwf, by simp, ?_⟩
         intro a ha b hb
         simp only [List.mem_singleton] at hb
         subst hb
         exact hnone a ha
       · rw [List.countP_append,
           List.countP_eq_zero.mpr (fun a ha => by simpa using hnone a ha)]
         simp
       · intro row hrow hcid
         rcases List.mem_append.mp hrow with hrow | hrow
         · exact absurd hcid (hnone row hrow)
         · simp only [List.mem_singleton] at hrow
           subst hrow
           exact ⟨rfl, rfl, rfl, rfl, rfl, rfl, rfl, rfl, rfl, rfl, rfl, rfl, rfl, rfl⟩
       · rintro ⟨x, hx, hxc⟩
         exact absurd hxc (hnone x hx)
       · intro
         simp)
    | -- update path: the first matching row is overwritten in place
      (have hs0 := List.find?_some hsf
       have hs0m := List.mem_of_find?_eq_some hsf
       refine ⟨?_, ?_, ?_, ?_, ?_, by trivial⟩
       · exact overwrite_updateFirst_pairwise d _ _ db.swaps hwf
       · rw [List.countP_eq_length_filter,
           overwrite_updateFirst_filter d _ _ db.swaps s0 hwf hsf]
         rfl
       · intro row hrow hcid
         have hmem := mem_contract_filter d.contract_id hrow hcid
         rw [overwrite_updateFirst_filter d _ _ db.swaps s0 hwf hsf] at hmem
         simp only [List.mem_singleton] at hmem
         subst hmem
         exact ⟨rfl, rfl, rfl, rfl, rfl, rfl, rfl, rfl, rfl, rfl, rfl, rfl, rfl, rfl⟩
       · intro _
         exact updateFirst_length _ _ _
       · intro hno
         exact absurd (⟨s0, hs0m, by simpa using hs0⟩ :
           ∃ x ∈ db.swaps, x.contract_id = d.contract_id) hno)

/-- C4: saving two payloads that share a contract_id leaves exactly one
swap row with that contract_id, whose content fields all equal the
second payload with updated_at refreshed to the second call; the second
call inserts nothing, and a single save inserts a row exactly when the
contract_id was unseen. -/
theorem C4_upsert_replaces (db : DB) (d1 d2 : SwapData)
    (hwf : db.swaps.Pairwise (fun a b => a.contract_id ≠ b.contract_id))
    (hcid : d1.contract_id = d2.contract_id)
    (h1 : d1.counterparty ≠ "") (h2 : d2.counterparty ≠ "") :
    (((db.save_swap d1).1.save_swap d2).1).swaps.countP
        (fun s => s.contract_id = d2.contract_id) = 1 ∧
    (∀ row ∈ (((db.save_swap d1).1.save_swap d2).1).swaps,
      row.contract_id = d2.contract_id →
        row_reflects row d2 ((db.save_swap d1).1).clock) ∧
    (((db.save_swap d1).1.save_swap d2).1).swaps.length =
      ((db.save_swap d1).1).swaps.length ∧
    ((db.save_swap d1).1).clock = db.clock + 1 ∧
    ((∃ x ∈ db.swaps, x.contract_id = d1.contract_id) →
      ((db.save_swap d1).1).swaps.length = db.swaps.length) ∧
    ((¬ ∃ x ∈ db.swaps, x.contract_id = d1.contract_id) →
      ((db.save_swap d1).1).swaps.length = db.swaps.length + 1) := by
  have A := save_swap_spec db d1 hwf h1
  have B := save_swap_spec (db.save_swap d1).1 d2 A.1 h2
  have hseen : ∃ x ∈ ((db.save_swap d1).1).swaps, x.contract_id = d2.contract_id := by
    have hpos : 0 < ((db.save_swap d1).1).swaps.countP
        (fun s => s.contract_id = d1.contract_id) := by
      rw [A.2.1]; exact Nat.one_pos
    rcases List.countP_pos_iff.mp hpos with ⟨x, hx, hxp⟩
    exact ⟨x, hx, hcid ▸ (by simpa using hxp)⟩
  exact ⟨B.2.1, B.2.2.1, B.2.2.2.1 hseen, A.2.2.2.2.2, A.2.2.2.1, A.2.2.2.2.1⟩

/-- Witness for C4: two concrete saves of the same contract_id from the
empty database. -/
theorem C4_upsert_replaces_witness :
    emptyDB.swaps.Pairwise (fun a b => a.contract_id ≠ b.contract_id) ∧
    gsSwapData.contract_id = gsSwapData2.contract_id ∧
    gsSwapData.counterparty ≠ "" ∧ gsSwapData2.counterparty ≠ "" ∧
    ((((emptyDB.save_swap gsSwapData).1.save_swap gsSwapData2).1).swaps.countP
        (fun s => s.contract_id = gsSwapData2.contract_id) = 1 ∧
      (∀ row ∈ (((emptyDB.save_swap gsSwapData).1.save_swap gsSwapData2).1).swaps,
        row.contract_id = gsSwapData2.contract_id →
          row_reflects row gsSwapData2 ((emptyDB.save_swap gsSwapData).1).clock) ∧
      (((emptyDB.save_swap gsSwapData).1.save_swap gsSwapData2).1).swaps.length =
        ((emptyDB.save_swap gsSwapData).1).swaps.length ∧
      ((emptyDB.save_swap gsSwapData).1).clock = emptyDB.clock + 1 ∧
      ((∃ x ∈ emptyDB.swaps, x.contract_id = gsSwapData.contract_id) →
        ((emptyDB.save_swap gsSwapData).1).swaps.length = emptyDB.swaps.length) ∧
      ((¬ ∃ x ∈ emptyDB.swaps, x.contract_id = gsSwapData.contract_id) →
        ((emptyDB.save_swap gsSwapData).1).swaps.length = emptyDB.swaps.length + 1)) :=
  ⟨by decide, by decide, by decide, by decide,
   C4_upsert_replaces emptyDB gsSwapData gsSwapData2
     (by decide) (by decide) (by decide) (by decide)⟩

/-- Erasing the first key match from a key-distinct list is filtering
the key out. -/
theorem eraseP_eq_filter_not_of_pairwise {α} (key : α → String) (k : String) :
    ∀ xs : List α, xs.Pairwise (fun a b => key a ≠ key b) →
      xs.eraseP (fun y => key y = k) = xs.filter (fun y => ¬ key y = k) := by
  intro xs
  induction xs with
  | nil => intro _; rfl
  | cons y ys ih =>
    intro hp
    rcases List.pairwise_cons.mp hp with ⟨hy, hys⟩
    by_cases h : key y = k
    · rw [List.eraseP_cons_of_pos (by simpa using h),
        List.filter_cons_of_neg (by simpa using h)]
      symm
      rw [List.filter_eq_self]
      intro a ha
      have hne := hy a ha
      simp only [decide_eq_true_eq]
      exact fun hak => hne (by rw [h, hak])
    · rw [List.eraseP_cons_of_neg (by simpa using h),
        List.filter_cons_of_pos (by simpa using h)]
      rw [ih hys]

/-- C8: deleting a present contract returns true, removes exactly its
swap row, its obligations, their triggers, and its instruments, and
leaves counterparties, securities and every other contract untouched;
deleting an absent contract_id returns false and changes nothing. -/
theorem C8_delete_swap_cascade (db : DB) (cid : String) (hwf : db.wf) :
    (∀ s : SwapRow, db.swaps.find? (fun r => r.contract_id = cid) = some s →
      (db.delete_swap cid).2 = true ∧
      ((db.delete_swap cid).1).counterparties = db.counterparties ∧
      ((db.delete_swap cid).1).securities = db.securities ∧
      ((db.delete_swap cid).1).swaps =
        db.swaps.filter (fun r => ¬ r.contract_id = cid) ∧
      (∀ o : ObligationRow, o ∈ ((db.delete_swap cid).1).obligations ↔
        o ∈ db.obligations ∧ ¬ o.swap_id = s.id) ∧
      (∀ t : TriggerRow, t ∈ ((db.delete_swap cid).1).triggers ↔
        t ∈ db.triggers ∧
          ¬ ∃ o ∈ db.obligations, o.swap_id = s.id ∧ o.id = t.obligation_id) ∧
      (∀ i : InstrumentRow, i ∈ ((db.delete_swap cid).1).instruments ↔
        i ∈ db.instruments ∧ ¬ i.swap_id = s.id)) ∧
    (db.swaps.find? (fun r => r.contract_id = cid) = none →
      db.delete_swap cid = (db, false)) := by
  constructor
  · intro s hfind
    unfold DB.delete_swap
    simp only [hfind]
    refine ⟨by trivial, by trivial, by trivial, ?_, ?_, ?_, ?_⟩
    · exact eraseP_eq_filter_not_of_pairwise SwapRow.contract_id cid db.swaps hwf.1
    · intro o
      simp [List.mem_filter]
    · intro t
      simp [List.mem_filter, List.any_eq_true]
    · intro i
      simp [List.mem_filter]
  · intro hfind
    unfold DB.delete_swap
    simp only [hfind]

/-- Witness for C8 at the concrete two-contract database. -/
theorem C8_delete_swap_cascade_witness :
    sampleDB.wf ∧
    (∀ s : SwapRow, sampleDB.swaps.find? (fun r => r.contract_id = "A") = some s →
      (sampleDB.delete_swap "A").2 = true ∧
      ((sampleDB.delete_swap "A").1).counterparties = sampleDB.counterparties ∧
      ((sampleDB.delete_swap "A").1).securities = sampleDB.securities ∧
      ((sampleDB.delete_swap "A").1).swaps =
        sampleDB.swaps.filter (fun r => ¬ r.contract_id = "A") ∧
      (∀ o : ObligationRow, o ∈ ((sampleDB.delete_swap "A").1).obligations ↔
        o ∈ sampleDB.obligations ∧ ¬ o.swap_id = s.id) ∧
      (∀ t : TriggerRow, t ∈ ((sampleDB.delete_swap "A").1).triggers ↔
        t ∈ sampleDB.triggers ∧
          ¬ ∃ o ∈ sampleDB.obligations, o.swap_id = s.id ∧ o.id = t.obligation_id) ∧
      (∀ i : InstrumentRow, i ∈ ((sampleDB.delete_swap "A").1).instruments ↔
        i ∈ sampleDB.instruments ∧ ¬ i.swap_id = s.id)) ∧
    (sampleDB.swaps.find? (fun r => r.contract_id = "A") = none →
      sampleDB.delete_swap "A" = (sampleDB, false)) :=
  ⟨by decide, C8_delete_swap_cascade sampleDB "A" (by decide)⟩


/-- Every tuple generated for a swap carries that swap. -/
theorem swap_of_mem_swapJoinedRows {db : DB} {s : SwapRow} {j : JoinedRow}
    (hj : j ∈ swapJoinedRows db s) : j.swap = s := by
  simp only [swapJoinedRows, List.mem_flatMap, List.mem_map] at hj
  rcases hj with ⟨o, _, ui, _, ot, _, rfl⟩
  rfl

/-- With distinct swap ids, restricting the join to one swap id keeps
exactly the tuples generated for that swap. -/
theorem filter_swapid_flatMap (db : DB) (s : SwapRow) :
    ∀ l : List SwapRow, l.Pairwise (fun a b => a.id ≠ b.id) → s ∈ l →
      (l.flatMap (swapJoinedRows db)).filter (fun j => j.swap.id = s.id) =
        swapJoinedRows db s := by
  intro l
  induction l with
  | nil => intro _ hs; simp at hs
  | cons y ys ih =>
    intro hp hs
    rcases List.pairwise_cons.mp hp with ⟨hy, hys⟩
    rw [List.flatMap_cons, List.filter_append]
    rcases List.mem_cons.mp hs with hs | hs
    · subst hs
      rw [List.filter_eq_self.mpr
        (fun j hj => by simp [swap_of_mem_swapJoinedRows hj])]
      rw [List.filter_eq_nil_iff.mpr ?_, List.append_nil]
      intro j hj
      rcases List.mem_flatMap.mp hj with ⟨z, hz, hjz⟩
      rw [swap_of_mem_swapJoinedRows hjz]
      simpa using (hy z hz).symm
    · rw [List.filter_eq_nil_iff.mpr ?_, List.nil_append, ih hys hs]
      intro j hj
      rw [swap_of_mem_swapJoinedRows hj]
      simpa using hy s hs

/-- Restricting the view to one swap id projects the active tuples
generated for that swap. -/
theorem viewRows_filter_eq (db : DB) (s : SwapRow) (hmem : s ∈ db.swaps)
    (hids : db.swaps.Pairwise (fun a b => a.id ≠ b.id)) :
    (viewRows db).filter (fun r => r.swap_id = s.id) =
      ((swapJoinedRows db s).filter (fun j =>
        match j.trigger with | some t => t.is_active | none => true)).map projectRow := by
  unfold viewRows activeJoinedRows joinedRows
  rw [List.filter_map]
  have hcomp : ((fun r : ViewRow => decide (r.swap_id = s.id)) ∘ projectRow) =
      (fun j : JoinedRow => decide (j.swap.id = s.id)) := by
    funext j; rfl
  rw [hcomp]
  congr 1
  rw [List.filter_comm]
  rw [filter_swapid_flatMap db s db.swaps hids hmem]

/-- C9: the obligations view holds one row per contract, obligation,
instrument and active trigger: a contract with no obligations and no
instruments appears exactly once with null obligation, instrument and
trigger columns; a contract with two obligations, one instrument and no
triggers yields exactly two rows that duplicate the instrument; and no
view row is produced from a trigger whose is_active flag is false. -/
theorem C9_obligations_view (db : DB) (s : SwapRow)
    (hmem : s ∈ db.swaps) (hids : db.swaps.Pairwise (fun a b => a.id ≠ b.id)) :
    (db.obligations.filter (fun o => o.swap_id = s.id) = [] →
     db.instruments.filter (fun i => i.swap_id = s.id) = [] →
      (viewRows db).filter (fun r => r.swap_id = s.id) =
        [projectRow
          { swap := s
            counterparty := db.counterparties.find? (fun c => c.id = s.counterparty_id)
            obligation := none, instrument := none, security := none, trigger := none }]) ∧
    (∀ o1 o2 i1, db.obligations.filter (fun o => o.swap_id = s.id) = [o1, o2] →
      db.instruments.filter (fun i => i.swap_id = s.id) = [i1] →
      db.triggers.filter (fun t => t.obligation_id = o1.id) = [] →
      db.triggers.filter (fun t => t.obligation_id = o2.id) = [] →
      (viewRows db).filter (fun r => r.swap_id = s.id) =
        [projectRow
          { swap := s
            counterparty := db.counterparties.find? (fun c => c.id = s.counterparty_id)
            obligation := some o1, instrument := some i1
            security := db.securities.find? (fun r => r.id = i1.security_id)
            trigger := none },
         projectRow
          { swap := s
            counterparty := db.counterparties.find? (fun c => c.id = s.counterparty_id)
            obligation := some o2, instrument := some i1
            security := db.securities.find? (fun r => r.id = i1.security_id)
            trigger := none }]) ∧
    (∀ j ∈ activeJoinedRows db, ∀ t : TriggerRow, j.trigger = some t →
      t.is_active = true) := by
  refine ⟨?_, ?_, ?_⟩
  · intro hobl hins
    rw [viewRows_filter_eq db s hmem hids]
    simp [swapJoinedRows, hobl, hins, leftOuter]
  · intro o1 o2 i1 hobl hins ht1 ht2
    rw [viewRows_filter_eq db s hmem hids]
    simp [swapJoinedRows, hobl, hins, ht1, ht2, leftOuter]
  · intro j hj t ht
    have h := (List.mem_filter.mp hj).2
    rw [ht] at h
    simpa using h

/-- Witness for C9 at the concrete view database and its second
contract. -/
theorem C9_obligations_view_witness :
    (sampleViewDB.swaps.get ⟨1, by decide⟩) ∈ sampleViewDB.swaps ∧
    sampleViewDB.swaps.Pairwise (fun a b => a.id ≠ b.id) ∧
    ((sampleViewDB.obligations.filter
        (fun o => o.swap_id = (sampleViewDB.swaps.get ⟨1, by decide⟩).id) = [] →
      sampleViewDB.instruments.filter
        (fun i => i.swap_id = (sampleViewDB.swaps.get ⟨1, by decide⟩).id) = [] →
      (viewRows sampleViewDB).filter
          (fun r => r.swap_id = (sampleViewDB.swaps.get ⟨1, by decide⟩).id) =
        [projectRow
          { swap := sampleViewDB.swaps.get ⟨1, by decide⟩
            counterparty := sampleViewDB.counterparties.find?
              (fun c => c.id = (sampleViewDB.swaps.get ⟨1, by decide⟩).counterparty_id)
            obligation := none, instrument := none, security := none, trigger := none }]) ∧
     (∀ o1 o2 i1, sampleViewDB.obligations.filter
          (fun o => o.swap_id = (sampleViewDB.swaps.get ⟨1, by decide⟩).id) = [o1, o2] →
        sampleViewDB.instruments.filter
          (fun i => i.swap_id = (sampleViewDB.swaps.get ⟨1, by decide⟩).id) = [i1] →
        sampleViewDB.triggers.filter (fun t => t.obligation_id = o1.id) = [] →
        sampleViewDB.triggers.filter (fun t => t.obligation_id = o2.id) = [] →
        (viewRows sampleViewDB).filter
            (fun r => r.swap_id = (sampleViewDB.swaps.get ⟨1, by decide⟩).id) =
          [projectRow
            { swap := sampleViewDB.swaps.get ⟨1, by decide⟩
              counterparty := sampleViewDB.counterparties.find?
                (fun c => c.id = (sampleViewDB.swaps.get ⟨1, by decide⟩).counterparty_id)
              obligation := some o1, instrument := some i1
              security := sampleViewDB.securities.find? (fun r => r.id = i1.security_id)
              trigger := none },
           projectRow
            { swap := sampleViewDB.swaps.get ⟨1, by decide⟩
              counterparty := sampleViewDB.counterparties.find?
                (fun c => c.id = (sampleViewDB.swaps.get ⟨1, by decide⟩).counterparty_id)
              obligation := some o2, instrument := some i1
              security := sampleViewDB.securities.find? (fun r => r.id = i1.security_id)
              trigger := none }]) ∧
     (∀ j ∈ activeJoinedRows sampleViewDB, ∀ t : TriggerRow, j.trigger = some t →
       t.is_active = true)) :=
  ⟨by decide, by decide,
   C9_obligations_view sampleViewDB (sampleViewDB.swaps.get ⟨1, by decide⟩)
     (by decide) (by decide)⟩



/-- C6 counterexample: a tabular row missing contract_id, counterparty,
reference_entity and notional_amount but carrying valid dates is not
skipped: it yields a contract with the defaults, the empty contract_id,
UNKNOWN names and a zero notional. -/
theorem C6_required_fields_counterexample :
    (process_dataframe ⟨c6Columns, [c6Row]⟩).length = 1 ∧
    (process_dataframe ⟨c6Columns, [c6Row]⟩).map
      (fun c => (c.contract_id, c.counterparty, c.reference_entity, c.notional_amount)) =
      [("", "UNKNOWN", "UNKNOWN", 0)] := by decide

/-- C6 amended: a tabular row whose date fields are missing or do not
parse is skipped, as is one whose notional does not parse as a number,
and processing of the remaining rows continues; a JSON item missing any
of the six required canonical fields is skipped, as is one whose
effective date string is not a valid calendar date; but tabular rows
missing contract_id, counterparty, reference_entity or notional_amount
are defaulted, not skipped. -/
theorem C6_row_skipping (ac : List (String × String)) (row : Row)
    (item : JsonItem) :
    (parse_pd_date (lookupCell (extract_row_data ac row) "effective_date") = none ∨
     parse_pd_date (lookupCell (extract_row_data ac row) "maturity_date") = none →
      process_row ac row = none) ∧
    (∀ c0 : Cell, lookupCell (extract_row_data ac row) "notional_amount" = some c0 →
      cell_float c0 = none → process_row ac row = none) ∧
    (∀ cols r1 r2, process_dataframe ⟨cols, r1 ++ r2⟩ =
      process_dataframe ⟨cols, r1⟩ ++ process_dataframe ⟨cols, r2⟩) ∧
    ((required_fields.all
        (fun f => (getJson (json_swap_data item) f).isSome)) = false →
      process_swap_item item = none) ∧
    (∀ s1 : String, getJson (json_swap_data item) "effective_date" =
        some (JsonVal.str s1) → parse_iso_date s1 = none →
      process_swap_item item = none) := by
  refine ⟨?_, ?_, ?_, ?_, ?_⟩
  · intro h
    simp only [process_row]
    rcases h1 : parse_pd_date (lookupCell (extract_row_data ac row) "effective_date")
        with _ | eff
    · rfl
    · rcases h with h | h
      · rw [h1] at h
        exact absurd h (by simp)
      · rw [h]
        rfl
  · intro c0 hlook hfloat
    have hnot : row_notional (extract_row_data ac row) = none := by
      simp only [row_notional, hlook, hfloat]
    simp only [process_row]
    rcases h1 : parse_pd_date (lookupCell (extract_row_data ac row) "effective_date")
        with _ | eff
    · rfl
    rcases h2 : parse_pd_date (lookupCell (extract_row_data ac row) "maturity_date")
        with _ | mat
    · rfl
    rw [hnot]
    rfl
  · intro cols r1 r2
    simp [process_dataframe, List.filterMap_append]
  · intro h
    simp only [process_swap_item]
    simp [h]
  · intro s1 heff hbad
    have hjd : json_date (json_swap_data item) "effective_date" = none := by
      simp only [json_date, heff, hbad]
    simp only [process_swap_item]
    rcases hg : required_fields.all
        (fun f => (getJson (json_swap_data item) f).isSome) with _ | _
    · rfl
    rcases hq : (getJson (json_swap_data item) "notional_amount").bind json_float
        with _ | q
    · rfl
    rcases hf : json_opt_float (json_swap_data item) "fixed_rate" with _ | fr
    · rfl
    rcases hsp : json_opt_float (json_swap_data item) "floating_rate_spread" with _ | sp
    · rfl
    rw [hjd]
    rfl

/-- Witness for C6 amended at concrete rows and items: a bad maturity
date skips the row, an unparseable notional skips the row, processing
splits over row concatenation, a JSON item without contract_id is
skipped, and a JSON item with month 13 is skipped. -/
theorem C6_row_skipping_witness :
    parse_pd_date (lookupCell (extract_row_data c7ac c6BadDateRow) "maturity_date") =
      none ∧
    process_row c7ac c6BadDateRow = none ∧
    lookupCell (extract_row_data c7ac c6BadNotionalRow) "notional_amount" =
      some (Cell.str "invalid_notional") ∧
    cell_float (Cell.str "invalid_notional") = none ∧
    process_row c7ac c6BadNotionalRow = none ∧
    process_dataframe ⟨c7Columns, [c7DefaultRow] ++ [c6BadDateRow]⟩ =
      process_dataframe ⟨c7Columns, [c7DefaultRow]⟩ ++
        process_dataframe ⟨c7Columns, [c6BadDateRow]⟩ ∧
    (required_fields.all
      (fun f => (getJson (json_swap_data c6MissingJson) f).isSome)) = false ∧
    process_swap_item c6MissingJson = none ∧
    getJson (json_swap_data c6BadDateJson) "effective_date" =
      some (JsonVal.str "2025-13-40") ∧
    parse_iso_date "2025-13-40" = none ∧
    process_swap_item c6BadDateJson = none :=
  ⟨by decide,
   (C6_row_skipping c7ac c6BadDateRow []).1 (Or.inr (by decide)),
   by decide, by decide,
   (C6_row_skipping c7ac c6BadNotionalRow []).2.1
     (Cell.str "invalid_notional") (by decide) (by decide),
   (C6_row_skipping c7ac c6BadDateRow []).2.2.1 c7Columns [c7DefaultRow] [c6BadDateRow],
   by decide,
   (C6_row_skipping c7ac c6BadDateRow c6MissingJson).2.2.2.1 (by decide),
   by decide, by decide,
   (C6_row_skipping c7ac c6BadDateRow c6BadDateJson).2.2.2.2 "2025-13-40"
     (by decide) (by decide)⟩

/-- C7 counterexample: a fully valid tabular row whose swap_type string
matches no enum value is dropped, not defaulted to OTHER. -/
theorem C7_unknown_enum_counterexample :
    lookupCell (extract_row_data c7ac c7BadTypeRow) "swap_type" =
      some (Cell.str "swaption") ∧
    SwapType.ofValue "swaption" = none ∧
    process_dataframe ⟨c7Columns, [c7BadTypeRow]⟩ = [] := by decide

/-- Inversion of a successful row conversion: the produced contract
carries exactly the coerced enums of the row. -/
theorem process_row_some_inv (ac : List (String × String)) (row : Row)
    (c : SwapContract) (hc : process_row ac row = some c) :
    coerce_swap_type (lookupCell (extract_row_data ac row) "swap_type") =
      some c.swap_type ∧
    coerce_payment_frequency (lookupCell (extract_row_data ac row) "payment_frequency") =
      some c.payment_frequency := by
  simp only [process_row] at hc
  rcases h1 : parse_pd_date (lookupCell (extract_row_data ac row) "effective_date")
      with _ | eff <;> rw [h1] at hc
  · exact absurd hc (by simp)
  rcases h2 : parse_pd_date (lookupCell (extract_row_data ac row) "maturity_date")
      with _ | mat <;> rw [h2] at hc
  · exact absurd hc (by simp)
  rcases h3 : row_notional (extract_row_data ac row) with _ | q <;> rw [h3] at hc
  · exact absurd hc (by simp)
  rcases h4 : coerce_swap_type (lookupCell (extract_row_data ac row) "swap_type")
      with _ | st <;> rw [h4] at hc
  · exact absurd hc (by simp)
  rcases h5 : coerce_payment_frequency
      (lookupCell (extract_row_data ac row) "payment_frequency")
      with _ | pf <;> rw [h5] at hc
  · exact absurd hc (by simp)
  have hrec := Option.some_inj.mp hc
  constructor
  · rw [← hrec]
  · rw [← hrec]

/-- C7 amended: a row with no swap type or payment frequency value
still yields a contract, with swap type OTHER and frequency QUARTERLY;
but a swap type or frequency string that matches no enum value under
the case-insensitive parse makes the constructor throw and the row is
dropped. -/
theorem C7_enum_defaults (ac : List (String × String)) (row : Row) :
    (∀ c : SwapContract, process_row ac row = some c →
      lookupCell (extract_row_data ac row) "swap_type" = none →
        c.swap_type = SwapType.other) ∧
    (∀ c : SwapContract, process_row ac row = some c →
      lookupCell (extract_row_data ac row) "payment_frequency" = none →
        c.payment_frequency = PaymentFrequency.quarterly) ∧
    (∀ s1 : String, lookupCell (extract_row_data ac row) "swap_type" =
        some (Cell.str s1) → SwapType.ofValue s1.pyLower = none →
      process_row ac row = none) ∧
    (∀ s1 : String, lookupCell (extract_row_data ac row) "payment_frequency" =
        some (Cell.str s1) → PaymentFrequency.ofValue s1.pyLower = none →
      process_row ac row = none) ∧
    (process_dataframe ⟨c7Columns, [c7DefaultRow]⟩).map
      (fun c => (c.swap_type, c.payment_frequency)) =
      [(SwapType.other, PaymentFrequency.quarterly)] := by
  refine ⟨?_, ?_, ?_, ?_, by decide⟩
  · intro c hc hlook
    have hst := (process_row_some_inv ac row c hc).1
    rw [hlook] at hst
    exact (Option.some_inj.mp hst).symm
  · intro c hc hlook
    have hpf := (process_row_some_inv ac row c hc).2
    rw [hlook] at hpf
    exact (Option.some_inj.mp hpf).symm
  · intro s1 hlook hbad
    have hco : coerce_swap_type (lookupCell (extract_row_data ac row) "swap_type") =
        none := by
      rw [hlook]
      simp only [coerce_swap_type, hbad]
    simp only [process_row]
    rcases h1 : parse_pd_date (lookupCell (extract_row_data ac row) "effective_date")
        with _ | eff
    · rfl
    rcases h2 : parse_pd_date (lookupCell (extract_row_data ac row) "maturity_date")
        with _ | mat
    · rfl
    rcases h3 : row_notional (extract_row_data ac row) with _ | q
    · rfl
    rw [hco]
    rfl
  · intro s1 hlook hbad
    have hco : coerce_payment_frequency
        (lookupCell (extract_row_data ac row) "payment_frequency") = none := by
      rw [hlook]
      simp only [coerce_payment_frequency, hbad]
    simp only [process_row]
    rcases h1 : parse_pd_date (lookupCell (extract_row_data ac row) "effective_date")
        with _ | eff
    · rfl
    rcases h2 : parse_pd_date (lookupCell (extract_row_data ac row) "maturity_date")
        with _ | mat
    · rfl
    rcases h3 : row_notional (extract_row_data ac row) with _ | q
    · rfl
    rcases h4 : coerce_swap_type (lookupCell (extract_row_data ac row) "swap_type")
        with _ | st
    · rfl
    rw [hco]
    rfl

/-- Witness for C7 amended at the defaulting row: the production
instance and the drop of an unknown type string. -/
theorem C7_enum_defaults_witness :
    lookupCell (extract_row_data c7ac c7DefaultRow) "swap_type" = none ∧
    lookupCell (extract_row_data c7ac c7DefaultRow) "payment_frequency" = none ∧
    (process_dataframe ⟨c7Columns, [c7DefaultRow]⟩).map
      (fun c => (c.swap_type, c.payment_frequency)) =
      [(SwapType.other, PaymentFrequency.quarterly)] ∧
    lookupCell (extract_row_data c7ac c7BadTypeRow) "swap_type" =
      some (Cell.str "swaption") ∧
    SwapType.ofValue ("swaption").pyLower = none ∧
    process_row c7ac c7BadTypeRow = none :=
  ⟨by decide, by decide,
   (C7_enum_defaults c7ac c7DefaultRow).2.2.2.2,
   by decide, by decide,
   (C7_enum_defaults c7ac c7BadTypeRow).2.2.1 "swaption" (by decide) (by decide)⟩


/-- C1 counterexample: a swap-type string that is no enum value does
not default to weight 30: the comprehension raises ValueError and the
scorer produces no result at all. -/
theorem C1_unknown_type_counterexample :
    calculate_risk_score 0 0 0 0 ["swaption"] = none := by
  simp only [calculate_risk_score]
  rfl

/-- Mapping a list through an option-valued function succeeds when it
succeeds pointwise. -/
theorem mapM_some_of_forall_isSome (f : α → Option β) :
    ∀ l : List α, (∀ x ∈ l, (f x).isSome) → ∃ ys, l.mapM f = some ys := by
  intro l
  induction l with
  | nil => intro _; exact ⟨[], rfl⟩
  | cons x xs ih =>
    intro h
    rcases Option.isSome_iff_exists.mp (h x (List.mem_cons_self x xs)) with ⟨y, hy⟩
    rcases ih (fun z hz => h z (List.mem_cons_of_mem x hz)) with ⟨ys, hys⟩
    exact ⟨y :: ys, by rw [List.mapM_cons, hy, hys]; rfl⟩

/-- Rounding to two decimals keeps the closed risk range. -/
theorem pyRound2_mem_Icc (x : ℝ) (h1 : 0 ≤ x) (h2 : x ≤ 100) :
    0 ≤ pyRound2 x ∧ pyRound2 x ≤ 100 := by
  have hl : (0 : ℤ) ≤ round (100 * x) := by
    rw [round_eq]
    exact Int.floor_nonneg.mpr (by linarith)
  have hu : round (100 * x) ≤ 10000 := by
    rw [round_eq]
    have hlt : (100 * x + 1 / 2 : ℝ) < ((10001 : ℤ) : ℝ) := by
      push_cast
      linarith
    have := Int.floor_lt.mpr hlt
    omega
  unfold pyRound2
  constructor
  · apply div_nonneg _ (by norm_num)
    exact_mod_cast hl
  · rw [div_le_iff₀ (by norm_num)]
    calc ((round (100 * x) : ℤ) : ℝ) ≤ ((10000 : ℤ) : ℝ) := by exact_mod_cast hu
      _ = 100 * 100 := by norm_num

/-- C1 amended: when every swap-type string parses as an enum value,
the scorer returns the weighted sum of the five clamped sub-scores,
clamped to the range 0 to 100 and rounded to two decimals, with the
type score the mean of the parsed type weights (30 on the empty list);
the result always lies between 0 and 100.  An unknown type string does
not default to 30: it makes the scorer raise instead. -/
theorem C1_risk_score (tn ttm cc cur : ℝ) (ts : List String)
    (h0 : (0 : ℝ) ≤ tn)
    (hp : ∀ s1 ∈ ts, (SwapType.ofValue s1).isSome) :
    ∃ parsed, ts.mapM SwapType.ofValue = some parsed ∧
      calculate_risk_score tn ttm cc cur ts =
        some (pyRound2 (min 100 (max 0
          (notional_score tn * (30 / 100) + maturity_score ttm * (20 / 100) +
           counterparty_score cc * (25 / 100) + currency_score cur * (15 / 100) +
           mean_type_score parsed * (10 / 100))))) ∧
      notional_score tn = min 100 (10 * Real.sqrt (tn / 1000000)) ∧
      ∀ r, calculate_risk_score tn ttm cc cur ts = some r → 0 ≤ r ∧ r ≤ 100 := by
  rcases mapM_some_of_forall_isSome SwapType.ofValue ts hp with ⟨parsed, hparsed⟩
  have hval : calculate_risk_score tn ttm cc cur ts =
      some (pyRound2 (min 100 (max 0
        (notional_score tn * (30 / 100) + maturity_score ttm * (20 / 100) +
         counterparty_score cc * (25 / 100) + currency_score cur * (15 / 100) +
         mean_type_score parsed * (10 / 100))))) := by
    simp only [calculate_risk_score, hparsed]
  refine ⟨parsed, hparsed, hval, ?_, ?_⟩
  · unfold notional_score
    rw [max_eq_right (by positivity)]
  · intro r hr
    rw [hval] at hr
    have hr2 := Option.some_inj.mp hr
    rw [← hr2]
    apply pyRound2_mem_Icc
    · exact le_min (by norm_num) (le_max_left _ _)
    · exact min_le_left _ _

/-- Witness for C1 amended at a zero portfolio of one credit default
swap type. -/
theorem C1_risk_score_witness :
    (0 : ℝ) ≤ 0 ∧
    (∀ s1 ∈ ["credit_default"], (SwapType.ofValue s1).isSome) ∧
    (∃ parsed, (["credit_default"] : List String).mapM SwapType.ofValue = some parsed ∧
      calculate_risk_score 0 0 0 0 ["credit_default"] =
        some (pyRound2 (min 100 (max 0
          (notional_score 0 * (30 / 100) + maturity_score 0 * (20 / 100) +
           counterparty_score 0 * (25 / 100) + currency_score 0 * (15 / 100) +
           mean_type_score parsed * (10 / 100))))) ∧
      notional_score 0 = min 100 (10 * Real.sqrt (0 / 1000000)) ∧
      ∀ r, calculate_risk_score 0 0 0 0 ["credit_default"] = some r →
        0 ≤ r ∧ r ≤ 100) :=
  ⟨le_refl 0, by decide, C1_risk_score 0 0 0 0 ["credit_default"] (le_refl 0) (by decide)⟩


end Gamecock
